import Mathlib

/-!
Verification development for a framebuffer terminal emulator (fb_term.c, fb_map.c).

The definitions below are a shallow embedding of the terminal state machine:
the cell grid, cursor, scroll region, SGR state, the ANSI/CSI/OSC byte parser,
the UTF-8 decoder, the device-report output channel, and the key mapper.
Bytes are natural numbers below 256; the grid is a total function from
(row, column) to cells, with the C array bounds expressed as explicit `< cols`
and `< rows` guards exactly where the C loops carry them.  The C `int` cursor
arithmetic is mirrored with natural subtraction: every subtraction in the
source is immediately followed by a clamp to zero, which coincides with
truncated subtraction.  The two dead fields `escape_buf`/`escape_buf_len`
(written but never read by the parser) are omitted.
-/

namespace FbTerm

/-- One character cell of the grid (struct cell in fb_term.c). -/
structure Cell where
  codepoint : Nat
  fg_color : Nat
  bg_color : Nat
  bold : Nat
deriving DecidableEq, Repr

/-- Parser state (the anonymous enum in struct terminal). -/
inductive PState where
  | normal
  | esc
  | csi
  | osc
deriving DecidableEq, Repr

/-- The terminal state (struct terminal), plus the grid dimensions
(the globals TERM_COLS/TERM_ROWS) and the bytes written to the PTY master
(`out`, guarded by `hasMaster`, modelling `master_fd >= 0`). -/
structure Terminal where
  cols : Nat
  rows : Nat
  cells : Nat → Nat → Cell
  cursor_x : Nat
  cursor_y : Nat
  cursor_visible : Nat
  fg_color : Nat
  bg_color : Nat
  bold : Nat
  scroll_top : Nat
  scroll_bottom : Nat
  hasMaster : Bool
  out : List Nat
  state : PState
  escape_params : Nat → Nat
  num_escape_params : Nat
  private_mode : Bool
  utf8_buf : List Nat

/-- The xterm-256 palette built by init_color_palette. -/
def color_palette (i : Nat) : Nat :=
  if i = 0 then 0x00000000
  else if i = 1 then 0x00CD0000
  else if i = 2 then 0x0000CD00
  else if i = 3 then 0x00CDCD00
  else if i = 4 then 0x000000EE
  else if i = 5 then 0x00CD00CD
  else if i = 6 then 0x0000CDCD
  else if i = 7 then 0x00E5E5E5
  else if i = 8 then 0x007F7F7F
  else if i = 9 then 0x00FF0000
  else if i = 10 then 0x0000FF00
  else if i = 11 then 0x00FFFF00
  else if i = 12 then 0x005C5CFF
  else if i = 13 then 0x00FF00FF
  else if i = 14 then 0x0000FFFF
  else if i = 15 then 0x00FFFFFF
  else if i < 232 then
    let j := i - 16
    (((j / 36) * 51) <<< 16) ||| ((((j / 6) % 6) * 51) <<< 8) ||| ((j % 6) * 51)
  else if i < 256 then
    let g := 8 + (i - 232) * 10
    (g <<< 16) ||| (g <<< 8) ||| g
  else 0

/-- term_init: blank grid (memset zero, then ' '/fg/bg written for the
in-bounds cells), cursor at origin, full-grid scroll region.  Cells outside
the `cols × rows` window keep their zeroed contents, as in the C array. -/
def term_init (cols rows : Nat) : Terminal :=
  { cols := cols
    rows := rows
    cells := fun y x =>
      if y < rows ∧ x < cols then
        { codepoint := 32, fg_color := 0x00FFFFFF, bg_color := 0, bold := 0 }
      else
        { codepoint := 0, fg_color := 0, bg_color := 0, bold := 0 }
    cursor_x := 0
    cursor_y := 0
    cursor_visible := 1
    fg_color := 0x00FFFFFF
    bg_color := 0
    bold := 0
    scroll_top := 0
    scroll_bottom := rows - 1
    hasMaster := false
    out := []
    state := .normal
    escape_params := fun _ => 0
    num_escape_params := 0
    private_mode := false
    utf8_buf := [] }

/-- The three assignments every clearing loop in the C source performs:
codepoint, fg_color and bg_color are overwritten, the bold field is left
as it was in the cell being cleared. -/
def clearCell (T : Terminal) (c : Cell) : Cell :=
  { c with codepoint := 32, fg_color := T.fg_color, bg_color := T.bg_color }

/-- term_scroll_up: rows scroll_top..scroll_bottom-1 receive the row below
(memcpy of TERM_COLS cells), then the scroll_bottom row's first TERM_COLS
cells are cleared. -/
def term_scroll_up (T : Terminal) : Terminal :=
  let shifted : Nat → Nat → Cell := fun y x =>
    if T.scroll_top ≤ y ∧ y < T.scroll_bottom ∧ x < T.cols then T.cells (y + 1) x
    else T.cells y x
  { T with cells := fun y x =>
      if y = T.scroll_bottom ∧ x < T.cols then clearCell T (shifted y x)
      else shifted y x }

/-- term_scroll_down: rows scroll_bottom..scroll_top+1 receive the row above,
then the scroll_top row's first TERM_COLS cells are cleared. -/
def term_scroll_down (T : Terminal) : Terminal :=
  let shifted : Nat → Nat → Cell := fun y x =>
    if T.scroll_top < y ∧ y ≤ T.scroll_bottom ∧ x < T.cols then T.cells (y - 1) x
    else T.cells y x
  { T with cells := fun y x =>
      if y = T.scroll_top ∧ x < T.cols then clearCell T (shifted y x)
      else shifted y x }

/-- term_newline: increment cursor_y; if past scroll_bottom, clamp to
scroll_bottom and scroll the region up. -/
def term_newline (T : Terminal) : Terminal :=
  if T.scroll_bottom < T.cursor_y + 1 then
    term_scroll_up { T with cursor_y := T.scroll_bottom }
  else { T with cursor_y := T.cursor_y + 1 }

/-- term_carriage_return. -/
def term_carriage_return (T : Terminal) : Terminal :=
  { T with cursor_x := 0 }

/-- The cell write at the end of term_putchar: store the codepoint with the
current SGR state at the cursor and advance cursor_x. -/
def term_putchar_store (T : Terminal) (cp : Nat) : Terminal :=
  { T with
    cells := fun y x =>
      if y = T.cursor_y ∧ x = T.cursor_x then
        { codepoint := cp, fg_color := T.fg_color, bg_color := T.bg_color,
          bold := T.bold }
      else T.cells y x
    cursor_x := T.cursor_x + 1 }

/-- The unconditional tail of term_putchar: clamp cursor_y into the grid,
then store the cell. -/
def term_putchar_write (T : Terminal) (cp : Nat) : Terminal :=
  if T.rows ≤ T.cursor_y then
    term_putchar_store { T with cursor_y := T.rows - 1 } cp
  else term_putchar_store T cp

/-- term_putchar: a pending wrap (cursor_x at or past cols) first performs
carriage return and newline, then the write happens. -/
def term_putchar (T : Terminal) (cp : Nat) : Terminal :=
  if T.cols ≤ T.cursor_x then
    term_putchar_write (term_newline (term_carriage_return T)) cp
  else
    term_putchar_write T cp

/-- Pointwise update of the parameter vector. -/
def setParam (p : Nat → Nat) (i v : Nat) : Nat → Nat :=
  fun j => if j = i then v else p j

/-- One SGR parameter, as one iteration of the loop in the 'm' case. -/
def sgr1 (T : Terminal) (v : Nat) : Terminal :=
  if v = 0 then { T with fg_color := 0x00FFFFFF, bg_color := 0, bold := 0 }
  else if v = 1 then { T with bold := 1 }
  else if v = 22 then { T with bold := 0 }
  else if 30 ≤ v ∧ v ≤ 37 then { T with fg_color := color_palette (v - 30) }
  else if v = 39 then { T with fg_color := 0x00FFFFFF }
  else if 40 ≤ v ∧ v ≤ 47 then { T with bg_color := color_palette (v - 40) }
  else if v = 49 then { T with bg_color := 0 }
  else if 90 ≤ v ∧ v ≤ 97 then { T with fg_color := color_palette (v - 90 + 8) }
  else if 100 ≤ v ∧ v ≤ 107 then { T with bg_color := color_palette (v - 100 + 8) }
  else T

/-- One DEC private mode parameter for 'h' (set) / 'l' (reset). -/
def decMode1 (T : Terminal) (set : Bool) (v : Nat) : Terminal :=
  if v = 25 then { T with cursor_visible := if set then 1 else 0 }
  else T

/-- Apply a state-transformer a fixed number of times, first application
first (the shape of the C `for` loops around term_scroll_up/down). -/
def iterateOp (f : Terminal → Terminal) : Nat → Terminal → Terminal
  | 0, T => T
  | k + 1, T => iterateOp f k (f T)

/-- ASCII decimal digits of a value, most significant first
(what snprintf "%d" produces for the positive values the code reports). -/
def decDigits (v : Nat) : List Nat :=
  (Nat.digits 10 v).reverse.map (· + 48)

/-- term_handle_csi: dispatch on the final byte.  Parameters are read from
the terminal state exactly as the C reads p[] and num_escape_params. -/
def term_handle_csi (T : Terminal) (final : Nat) : Terminal :=
  let p := T.escape_params
  let n := T.num_escape_params
  if final = 72 ∨ final = 102 then
    -- 'H' / 'f' Cursor Position
    let cy := if 0 < n ∧ 0 < p 0 then p 0 - 1 else 0
    let cx := if 1 < n ∧ 0 < p 1 then p 1 - 1 else 0
    { T with
      cursor_y := if T.rows ≤ cy then T.rows - 1 else cy
      cursor_x := if T.cols ≤ cx then T.cols - 1 else cx }
  else if final = 65 then
    -- 'A' Cursor Up (int subtraction then clamp at 0 = truncated subtraction)
    { T with cursor_y := T.cursor_y - (if 0 < n ∧ 0 < p 0 then p 0 else 1) }
  else if final = 66 then
    -- 'B' Cursor Down
    let cy := T.cursor_y + (if 0 < n ∧ 0 < p 0 then p 0 else 1)
    { T with cursor_y := if T.rows ≤ cy then T.rows - 1 else cy }
  else if final = 67 then
    -- 'C' Cursor Forward
    let cx := T.cursor_x + (if 0 < n ∧ 0 < p 0 then p 0 else 1)
    { T with cursor_x := if T.cols ≤ cx then T.cols - 1 else cx }
  else if final = 68 then
    -- 'D' Cursor Backward
    { T with cursor_x := T.cursor_x - (if 0 < n ∧ 0 < p 0 then p 0 else 1) }
  else if final = 74 then
    -- 'J' Erase Display
    if n = 0 ∨ p 0 = 0 then
      { T with cells := fun y x =>
          if (y = T.cursor_y ∧ T.cursor_x ≤ x ∧ x < T.cols) ∨
             (T.cursor_y < y ∧ y < T.rows ∧ x < T.cols) then
            clearCell T (T.cells y x)
          else T.cells y x }
    else if p 0 = 1 then
      { T with cells := fun y x =>
          if (y < T.cursor_y ∧ x < T.cols) ∨ (y = T.cursor_y ∧ x ≤ T.cursor_x) then
            clearCell T (T.cells y x)
          else T.cells y x }
    else if p 0 = 2 ∨ p 0 = 3 then
      { T with cells := fun y x =>
          if y < T.rows ∧ x < T.cols then clearCell T (T.cells y x)
          else T.cells y x }
    else T
  else if final = 75 then
    -- 'K' Erase Line
    if n = 0 ∨ p 0 = 0 then
      { T with cells := fun y x =>
          if y = T.cursor_y ∧ T.cursor_x ≤ x ∧ x < T.cols then
            clearCell T (T.cells y x)
          else T.cells y x }
    else if p 0 = 1 then
      { T with cells := fun y x =>
          if y = T.cursor_y ∧ x ≤ T.cursor_x then clearCell T (T.cells y x)
          else T.cells y x }
    else if p 0 = 2 then
      { T with cells := fun y x =>
          if y = T.cursor_y ∧ x < T.cols then clearCell T (T.cells y x)
          else T.cells y x }
    else T
  else if final = 109 then
    -- 'm' SGR: with no parameters reset; then fold the parameter list
    -- (the n = 0 reset followed by an empty loop collapses to the reset)
    let T1 := if n = 0 then
        { T with fg_color := 0x00FFFFFF, bg_color := 0, bold := 0 }
      else T
    (List.range n).foldl (fun A i => sgr1 A (p i)) T1
  else if final = 104 then
    -- 'h' Set Mode
    if T.private_mode then (List.range n).foldl (fun A i => decMode1 A true (p i)) T
    else T
  else if final = 108 then
    -- 'l' Reset Mode
    if T.private_mode then (List.range n).foldl (fun A i => decMode1 A false (p i)) T
    else T
  else if final = 114 then
    -- 'r' Set scrolling region
    let st := if 0 < n ∧ 0 < p 0 then p 0 - 1 else 0
    let sb := if 1 < n ∧ 0 < p 1 then p 1 - 1 else T.rows - 1
    { T with
      scroll_top := if T.rows ≤ st then 0 else st
      scroll_bottom := if T.rows ≤ sb then T.rows - 1 else sb }
  else if final = 100 then
    -- 'd' Line Position Absolute
    let cy := if 0 < n ∧ 0 < p 0 then p 0 - 1 else 0
    { T with cursor_y := if T.rows ≤ cy then T.rows - 1 else cy }
  else if final = 71 then
    -- 'G' Cursor Character Absolute
    let cx := if 0 < n ∧ 0 < p 0 then p 0 - 1 else 0
    { T with cursor_x := if T.cols ≤ cx then T.cols - 1 else cx }
  else if final = 83 then
    -- 'S' Scroll Up
    iterateOp term_scroll_up (if 0 < n ∧ 0 < p 0 then p 0 else 1) T
  else if final = 84 then
    -- 'T' Scroll Down
    iterateOp term_scroll_down (if 0 < n ∧ 0 < p 0 then p 0 else 1) T
  else if final = 76 then
    -- 'L' Insert Line: repeat (shift [cursor_y+1, scroll_bottom] down, blank cursor_y row)
    iterateOp
      (fun A =>
        let shifted : Nat → Nat → Cell := fun y x =>
          if A.cursor_y < y ∧ y ≤ A.scroll_bottom ∧ x < A.cols then A.cells (y - 1) x
          else A.cells y x
        { A with cells := fun y x =>
            if y = A.cursor_y ∧ x < A.cols then clearCell A (shifted y x)
            else shifted y x })
      (if 0 < n ∧ 0 < p 0 then p 0 else 1) T
  else if final = 77 then
    -- 'M' Delete Line: repeat (shift [cursor_y, scroll_bottom-1] up, blank scroll_bottom row)
    iterateOp
      (fun A =>
        let shifted : Nat → Nat → Cell := fun y x =>
          if A.cursor_y ≤ y ∧ y < A.scroll_bottom ∧ x < A.cols then A.cells (y + 1) x
          else A.cells y x
        { A with cells := fun y x =>
            if y = A.scroll_bottom ∧ x < A.cols then clearCell A (shifted y x)
            else shifted y x })
      (if 0 < n ∧ 0 < p 0 then p 0 else 1) T
  else if final = 88 then
    -- 'X' Erase Characters
    let count := if 0 < n ∧ 0 < p 0 then p 0 else 1
    { T with cells := fun y x =>
        if y = T.cursor_y ∧ T.cursor_x ≤ x ∧ x < T.cursor_x + count ∧ x < T.cols then
          clearCell T (T.cells y x)
        else T.cells y x }
  else if final = 80 then
    -- 'P' Delete Characters.  The C loop bounds use int arithmetic; the
    -- exact (possibly negative) write-index set of the source loops is
    -- rendered separately by csiP_writtenCols below.  Here the in-grid
    -- effect is expressed with the no-underflow forms of the same bounds.
    let count := if 0 < n ∧ 0 < p 0 then p 0 else 1
    { T with cells := fun y x =>
        if y = T.cursor_y ∧ T.cursor_x ≤ x ∧ x + count < T.cols then
          T.cells y (x + count)
        else if y = T.cursor_y ∧ T.cols - count ≤ x ∧ x < T.cols then
          clearCell T (T.cells y x)
        else T.cells y x }
  else if final = 64 then
    -- '@' Insert Characters
    let count := if 0 < n ∧ 0 < p 0 then p 0 else 1
    { T with cells := fun y x =>
        if y = T.cursor_y ∧ T.cursor_x + count ≤ x ∧ x < T.cols then
          T.cells y (x - count)
        else if y = T.cursor_y ∧ T.cursor_x ≤ x ∧ x < T.cursor_x + count ∧ x < T.cols then
          clearCell T (T.cells y x)
        else T.cells y x }
  else if final = 110 then
    -- 'n' Device Status Report
    if 0 < n ∧ p 0 = 6 then
      if T.hasMaster then
        { T with out := T.out ++ [27, 91] ++ decDigits (T.cursor_y + 1) ++ [59] ++
                        decDigits (T.cursor_x + 1) ++ [82] }
      else T
    else if 0 < n ∧ p 0 = 5 then
      if T.hasMaster then { T with out := T.out ++ [27, 91, 48, 110] } else T
    else T
  else if final = 99 then
    -- 'c' Device Attributes
    if T.hasMaster then { T with out := T.out ++ [27, 91, 63, 49, 59, 50, 99] } else T
  else T

/-- Expected length of a UTF-8 sequence from its first byte, as computed in
term_process_char (initialised to 1; unmatched leading bytes keep it 1). -/
def utf8_expected_len (b0 : Nat) : Nat :=
  if b0 &&& 0x80 = 0 then 1
  else if b0 &&& 0xE0 = 0xC0 then 2
  else if b0 &&& 0xF0 = 0xE0 then 3
  else if b0 &&& 0xF8 = 0xF0 then 4
  else 1

/-- utf8_decode, reading from the accumulated byte list.  A missing byte is
read as 0 (the NUL test on `**p`), matching the pointer-walking C code. -/
def utf8_decode : List Nat → Nat
  | [] => 0
  | c :: rest =>
    if c = 0 then 0
    else if c &&& 0x80 = 0 then c
    else if c &&& 0xE0 = 0xC0 then
      let cp := (c &&& 0x1F) <<< 6
      match rest with
      | [] => cp
      | b1 :: _ =>
        if b1 ≠ 0 ∧ b1 &&& 0xC0 = 0x80 then cp ||| (b1 &&& 0x3F) else cp
    else if c &&& 0xF0 = 0xE0 then
      let cp := (c &&& 0x0F) <<< 12
      match rest with
      | [] => cp
      | b1 :: rest1 =>
        if b1 ≠ 0 ∧ b1 &&& 0xC0 = 0x80 then
          let cp1 := cp ||| ((b1 &&& 0x3F) <<< 6)
          match rest1 with
          | [] => cp1
          | b2 :: _ =>
            if b2 ≠ 0 ∧ b2 &&& 0xC0 = 0x80 then cp1 ||| (b2 &&& 0x3F) else cp1
        else cp
    else if c &&& 0xF8 = 0xF0 then
      let cp := (c &&& 0x07) <<< 18
      match rest with
      | [] => cp
      | b1 :: rest1 =>
        if b1 ≠ 0 ∧ b1 &&& 0xC0 = 0x80 then
          let cp1 := cp ||| ((b1 &&& 0x3F) <<< 12)
          match rest1 with
          | [] => cp1
          | b2 :: rest2 =>
            if b2 ≠ 0 ∧ b2 &&& 0xC0 = 0x80 then
              let cp2 := cp1 ||| ((b2 &&& 0x3F) <<< 6)
              match rest2 with
              | [] => cp2
              | b3 :: _ =>
                if b3 ≠ 0 ∧ b3 &&& 0xC0 = 0x80 then cp2 ||| (b3 &&& 0x3F) else cp2
            else cp1
        else cp
    else 0xFFFD

/-- term_process_char: the per-byte state machine. -/
def term_process_char (T : Terminal) (ch : Nat) : Terminal :=
  match T.state with
  | .normal =>
    if ch = 27 then { T with state := .esc, utf8_buf := [] }
    else if ch = 10 then { term_newline T with utf8_buf := [] }
    else if ch = 13 then { term_carriage_return T with utf8_buf := [] }
    else if ch = 8 then
      { T with cursor_x := if 0 < T.cursor_x then T.cursor_x - 1 else T.cursor_x,
               utf8_buf := [] }
    else if ch = 9 then
      -- tab: (x+8) & ~7, i.e. the next multiple of 8
      let nx := ((T.cursor_x + 8) / 8) * 8
      if T.cols ≤ nx then { term_newline { T with cursor_x := 0 } with utf8_buf := [] }
      else { T with cursor_x := nx, utf8_buf := [] }
    else if 32 ≤ ch then
      let buf := T.utf8_buf ++ [ch]
      if utf8_expected_len (buf.headD 0) ≤ buf.length then
        { term_putchar T (utf8_decode buf) with utf8_buf := [] }
      else { T with utf8_buf := buf }
    else T
  | .esc =>
    if ch = 91 then
      { T with state := .csi, num_escape_params := 0, private_mode := false,
               escape_params := fun _ => 0 }
    else if ch = 93 then { T with state := .osc }
    else if ch = 40 then { T with state := .normal }
    else { T with state := .normal }
  | .csi =>
    if 48 ≤ ch ∧ ch ≤ 57 then
      let m := if T.num_escape_params = 0 then 1 else T.num_escape_params
      { T with num_escape_params := m,
               escape_params :=
                 setParam T.escape_params (m - 1)
                   (T.escape_params (m - 1) * 10 + (ch - 48)) }
    else if ch = 59 then
      if T.num_escape_params < 16 then
        { T with num_escape_params := T.num_escape_params + 1 }
      else T
    else if ch = 63 then { T with private_mode := true }
    else if 64 ≤ ch ∧ ch ≤ 126 then
      { term_handle_csi T ch with state := .normal, private_mode := false }
    else if 32 ≤ ch ∧ ch ≤ 47 then T
    else { T with state := .normal, private_mode := false }
  | .osc =>
    if ch = 7 ∨ ch = 27 then { T with state := .normal } else T

/-- Process a byte stream in arrival order. -/
def processBytes (T : Terminal) (bs : List Nat) : Terminal :=
  bs.foldl term_process_char T

/-- Canonical UTF-8 encoding of a scalar value (the spec's "canonical
UTF-8 encoding"; continuation payloads are the 6-bit groups). -/
def utf8Encode (cp : Nat) : List Nat :=
  if cp < 0x80 then [cp]
  else if cp < 0x800 then [0xC0 + cp / 64, 0x80 + cp % 64]
  else if cp < 0x10000 then
    [0xE0 + cp / 4096, 0x80 + cp / 64 % 64, 0x80 + cp % 64]
  else
    [0xF0 + cp / 262144, 0x80 + cp / 4096 % 64, 0x80 + cp / 64 % 64, 0x80 + cp % 64]

/-- Integer interval [lo, hi) as a list, for rendering C loop index ranges. -/
def intRange (lo hi : Int) : List Int :=
  (List.range (hi - lo).toNat).map (fun (i : Nat) => lo + (i : Int))

/-- The column indices written on the cursor row by the CSI 'P'
(Delete Characters) case, exactly as the two C loops compute them in int
arithmetic: the shift loop runs for x in [cursor_x, cols-count) writing
cells[cursor_y][x], then the blank loop runs for x in [cols-count, cols). -/
def csiP_writtenCols (cursor_x cols count : Int) : List Int :=
  intRange cursor_x (cols - count) ++ intRange (cols - count) cols

end FbTerm

namespace FbMap

/-! Key-mapper embedding (fb_map.c).  The keycodes are the Linux evdev
codes from linux/input-event-codes.h used by the source. -/

def KEY_ESC : Nat := 1
def KEY_1 : Nat := 2
def KEY_9 : Nat := 10
def KEY_0 : Nat := 11
def KEY_MINUS : Nat := 12
def KEY_EQUAL : Nat := 13
def KEY_BACKSPACE : Nat := 14
def KEY_TAB : Nat := 15
def KEY_Q : Nat := 16
def KEY_W : Nat := 17
def KEY_E : Nat := 18
def KEY_R : Nat := 19
def KEY_T : Nat := 20
def KEY_Y : Nat := 21
def KEY_U : Nat := 22
def KEY_I : Nat := 23
def KEY_O : Nat := 24
def KEY_P : Nat := 25
def KEY_LEFTBRACE : Nat := 26
def KEY_RIGHTBRACE : Nat := 27
def KEY_ENTER : Nat := 28
def KEY_LEFTCTRL : Nat := 29
def KEY_A : Nat := 30
def KEY_S : Nat := 31
def KEY_D : Nat := 32
def KEY_F : Nat := 33
def KEY_G : Nat := 34
def KEY_H : Nat := 35
def KEY_J : Nat := 36
def KEY_K : Nat := 37
def KEY_L : Nat := 38
def KEY_SEMICOLON : Nat := 39
def KEY_APOSTROPHE : Nat := 40
def KEY_GRAVE : Nat := 41
def KEY_LEFTSHIFT : Nat := 42
def KEY_BACKSLASH : Nat := 43
def KEY_Z : Nat := 44
def KEY_X : Nat := 45
def KEY_C : Nat := 46
def KEY_V : Nat := 47
def KEY_B : Nat := 48
def KEY_N : Nat := 49
def KEY_M : Nat := 50
def KEY_COMMA : Nat := 51
def KEY_DOT : Nat := 52
def KEY_SLASH : Nat := 53
def KEY_RIGHTSHIFT : Nat := 54
def KEY_LEFTALT : Nat := 56
def KEY_SPACE : Nat := 57
def KEY_RIGHTCTRL : Nat := 97
def KEY_RIGHTALT : Nat := 100
def KEY_HOME : Nat := 102
def KEY_UP : Nat := 103
def KEY_PAGEUP : Nat := 104
def KEY_LEFT : Nat := 105
def KEY_RIGHT : Nat := 106
def KEY_END : Nat := 107
def KEY_DOWN : Nat := 108
def KEY_PAGEDOWN : Nat := 109
def KEY_INSERT : Nat := 110
def KEY_DELETE : Nat := 111

/-- kb_get_sequence as a function of the tracked modifier flags and the
keycode, returning the byte sequence destined for the PTY master.  The
modifier-tracking assignments performed on modifier keycodes are the
caller's transition of the ctrl/shift flags; those branches return the
empty sequence, as here. -/
def kb_get_sequence (ctrl_pressed shift_pressed : Bool) (keycode : Nat) : List Nat :=
  if keycode = KEY_LEFTCTRL ∨ keycode = KEY_RIGHTCTRL then []
  else if keycode = KEY_LEFTSHIFT ∨ keycode = KEY_RIGHTSHIFT then []
  else if keycode = KEY_LEFTALT ∨ keycode = KEY_RIGHTALT then []
  else if keycode = KEY_UP then [27, 91, 65]
  else if keycode = KEY_DOWN then [27, 91, 66]
  else if keycode = KEY_RIGHT then [27, 91, 67]
  else if keycode = KEY_LEFT then [27, 91, 68]
  else if keycode = KEY_HOME then [27, 91, 72]
  else if keycode = KEY_END then [27, 91, 70]
  else if keycode = KEY_PAGEUP then [27, 91, 53, 126]
  else if keycode = KEY_PAGEDOWN then [27, 91, 54, 126]
  else if keycode = KEY_INSERT then [27, 91, 50, 126]
  else if keycode = KEY_DELETE then [27, 91, 51, 126]
  else if keycode = KEY_ENTER then [13]
  else if keycode = KEY_TAB then [9]
  else if keycode = KEY_BACKSPACE then [127]
  else if keycode = KEY_ESC then [27]
  else if keycode = KEY_SPACE then [32]
  else if ctrl_pressed ∧ keycode = KEY_C then [0x03]
  else if ctrl_pressed ∧ keycode = KEY_D then [0x04]
  else if ctrl_pressed ∧ keycode = KEY_Z then [0x1A]
  else if ctrl_pressed ∧ keycode = KEY_L then [0x0C]
  else if ctrl_pressed ∧ keycode = KEY_A then [0x01]
  else if ctrl_pressed ∧ keycode = KEY_E then [0x05]
  else if ctrl_pressed ∧ keycode = KEY_K then [0x0B]
  else if ctrl_pressed ∧ keycode = KEY_U then [0x15]
  else if ctrl_pressed ∧ keycode = KEY_W then [0x17]
  else if ctrl_pressed ∧ keycode = KEY_R then [0x12]
  else if KEY_A ≤ keycode ∧ keycode ≤ KEY_Z then
    [if shift_pressed then 65 + (keycode - KEY_A) else 97 + (keycode - KEY_A)]
  else if KEY_1 ≤ keycode ∧ keycode ≤ KEY_9 then
    [if shift_pressed then
       -- the shifted table "!@#$%^&*("
       [33, 64, 35, 36, 37, 94, 38, 42, 40].getD (keycode - KEY_1) 0
     else 49 + (keycode - KEY_1)]
  else if keycode = KEY_0 then [if shift_pressed then 41 else 48]
  else if keycode = KEY_MINUS then [if shift_pressed then 95 else 45]
  else if keycode = KEY_EQUAL then [if shift_pressed then 43 else 61]
  else if keycode = KEY_LEFTBRACE then [if shift_pressed then 123 else 91]
  else if keycode = KEY_RIGHTBRACE then [if shift_pressed then 125 else 93]
  else if keycode = KEY_SEMICOLON then [if shift_pressed then 58 else 59]
  else if keycode = KEY_APOSTROPHE then [if shift_pressed then 34 else 39]
  else if keycode = KEY_GRAVE then [if shift_pressed then 126 else 96]
  else if keycode = KEY_BACKSLASH then [if shift_pressed then 124 else 92]
  else if keycode = KEY_COMMA then [if shift_pressed then 60 else 44]
  else if keycode = KEY_DOT then [if shift_pressed then 62 else 46]
  else if keycode = KEY_SLASH then [if shift_pressed then 63 else 47]
  else []

end FbMap

namespace FbTerm

/-- Decimal accumulation of CSI parameter digit values, exactly as the
digit branch of the CSI state performs it byte by byte. -/
def paramFold (v : Nat) (ds : List Nat) : Nat :=
  ds.foldl (fun a d => a * 10 + d) v

/-- The observable content of a cell as drawn by the renderer that
the clearing loops write: codepoint, foreground, background. -/
def vis (c : Cell) : Nat × Nat × Nat :=
  (c.codepoint, c.fg_color, c.bg_color)

/-- Every stored codepoint fits in the 21 bits the UTF-8 decoder can
produce. -/
def cellCpBound (T : Terminal) : Prop :=
  ∀ y x, (T.cells y x).codepoint < 2097152

/-- Every byte held in the UTF-8 accumulator is a byte. -/
def bufBound (T : Terminal) : Prop :=
  ∀ b ∈ T.utf8_buf, b < 256

end FbTerm

namespace FbTerm

/-! ## C1: scroll region clamping -/

/-- C1 (counterexample): processing ESC[5;2r from the initial 80×24 state
leaves scroll_top = 4 and scroll_bottom = 1, violating
scroll_top ≤ scroll_bottom: the 'r' handler clamps each bound against the
row count but never enforces the ordering. -/
theorem c1_scroll_region_counterexample :
    (processBytes (term_init 80 24) [27, 91, 53, 59, 50, 114]).scroll_top = 4 ∧
    (processBytes (term_init 80 24) [27, 91, 53, 59, 50, 114]).scroll_bottom = 1 ∧
    ¬((processBytes (term_init 80 24) [27, 91, 53, 59, 50, 114]).scroll_top ≤
      (processBytes (term_init 80 24) [27, 91, 53, 59, 50, 114]).scroll_bottom) := by
  refine ⟨rfl, rfl, ?_⟩
  decide

/-- C1 (amended): for every parameter pair given to CSI r, each of the
resulting scroll_top and scroll_bottom is individually clamped into
[0, rows-1]; the ordering scroll_top ≤ scroll_bottom is not enforced. -/
theorem c1_scroll_region_each_clamped (T : Terminal) (h : 0 < T.rows) :
    (term_handle_csi T 114).scroll_top < T.rows ∧
    (term_handle_csi T 114).scroll_bottom < T.rows := by
  unfold term_handle_csi
  norm_num
  constructor <;> split <;> split <;> omega

/-- C1 witness: the amended clamping theorem at the initial 80×24 state. -/
theorem c1_scroll_region_each_clamped_witness :
    (term_handle_csi (term_init 80 24) 114).scroll_top < (term_init 80 24).rows ∧
    (term_handle_csi (term_init 80 24) 114).scroll_bottom < (term_init 80 24).rows :=
  c1_scroll_region_each_clamped (term_init 80 24) (by decide)

end FbTerm


namespace FbTerm

/-! ## Projection lemmas for the grid operations -/

/-- Field cols is unchanged by term_scroll_up. -/
@[simp] theorem scroll_up_cols (T : Terminal) : (term_scroll_up T).cols = T.cols := rfl

/-- Field rows is unchanged by term_scroll_up. -/
@[simp] theorem scroll_up_rows (T : Terminal) : (term_scroll_up T).rows = T.rows := rfl

/-- Field cursor_x is unchanged by term_scroll_up. -/
@[simp] theorem scroll_up_cursor_x (T : Terminal) : (term_scroll_up T).cursor_x = T.cursor_x := rfl

/-- Field cursor_y is unchanged by term_scroll_up. -/
@[simp] theorem scroll_up_cursor_y (T : Terminal) : (term_scroll_up T).cursor_y = T.cursor_y := rfl

/-- Field cursor_visible is unchanged by term_scroll_up. -/
@[simp] theorem scroll_up_cursor_visible (T : Terminal) : (term_scroll_up T).cursor_visible = T.cursor_visible := rfl

/-- Field fg_color is unchanged by term_scroll_up. -/
@[simp] theorem scroll_up_fg_color (T : Terminal) : (term_scroll_up T).fg_color = T.fg_color := rfl

/-- Field bg_color is unchanged by term_scroll_up. -/
@[simp] theorem scroll_up_bg_color (T : Terminal) : (term_scroll_up T).bg_color = T.bg_color := rfl

/-- Field bold is unchanged by term_scroll_up. -/
@[simp] theorem scroll_up_bold (T : Terminal) : (term_scroll_up T).bold = T.bold := rfl

/-- Field scroll_top is unchanged by term_scroll_up. -/
@[simp] theorem scroll_up_scroll_top (T : Terminal) : (term_scroll_up T).scroll_top = T.scroll_top := rfl

/-- Field scroll_bottom is unchanged by term_scroll_up. -/
@[simp] theorem scroll_up_scroll_bottom (T : Terminal) : (term_scroll_up T).scroll_bottom = T.scroll_bottom := rfl

/-- Field hasMaster is unchanged by term_scroll_up. -/
@[simp] theorem scroll_up_hasMaster (T : Terminal) : (term_scroll_up T).hasMaster = T.hasMaster := rfl

/-- Field out is unchanged by term_scroll_up. -/
@[simp] theorem scroll_up_out (T : Terminal) : (term_scroll_up T).out = T.out := rfl

/-- Field state is unchanged by term_scroll_up. -/
@[simp] theorem scroll_up_state (T : Terminal) : (term_scroll_up T).state = T.state := rfl

/-- Field escape_params is unchanged by term_scroll_up. -/
@[simp] theorem scroll_up_escape_params (T : Terminal) : (term_scroll_up T).escape_params = T.escape_params := rfl

/-- Field num_escape_params is unchanged by term_scroll_up. -/
@[simp] theorem scroll_up_num_escape_params (T : Terminal) : (term_scroll_up T).num_escape_params = T.num_escape_params := rfl

/-- Field private_mode is unchanged by term_scroll_up. -/
@[simp] theorem scroll_up_private_mode (T : Terminal) : (term_scroll_up T).private_mode = T.private_mode := rfl

/-- Field utf8_buf is unchanged by term_scroll_up. -/
@[simp] theorem scroll_up_utf8_buf (T : Terminal) : (term_scroll_up T).utf8_buf = T.utf8_buf := rfl

/-- Field cols is unchanged by term_scroll_down. -/
@[simp] theorem scroll_down_cols (T : Terminal) : (term_scroll_down T).cols = T.cols := rfl

/-- Field rows is unchanged by term_scroll_down. -/
@[simp] theorem scroll_down_rows (T : Terminal) : (term_scroll_down T).rows = T.rows := rfl

/-- Field cursor_x is unchanged by term_scroll_down. -/
@[simp] theorem scroll_down_cursor_x (T : Terminal) : (term_scroll_down T).cursor_x = T.cursor_x := rfl

/-- Field cursor_y is unchanged by term_scroll_down. -/
@[simp] theorem scroll_down_cursor_y (T : Terminal) : (term_scroll_down T).cursor_y = T.cursor_y := rfl

/-- Field cursor_visible is unchanged by term_scroll_down. -/
@[simp] theorem scroll_down_cursor_visible (T : Terminal) : (term_scroll_down T).cursor_visible = T.cursor_visible := rfl

/-- Field fg_color is unchanged by term_scroll_down. -/
@[simp] theorem scroll_down_fg_color (T : Terminal) : (term_scroll_down T).fg_color = T.fg_color := rfl

/-- Field bg_color is unchanged by term_scroll_down. -/
@[simp] theorem scroll_down_bg_color (T : Terminal) : (term_scroll_down T).bg_color = T.bg_color := rfl

/-- Field bold is unchanged by term_scroll_down. -/
@[simp] theorem scroll_down_bold (T : Terminal) : (term_scroll_down T).bold = T.bold := rfl

/-- Field scroll_top is unchanged by term_scroll_down. -/
@[simp] theorem scroll_down_scroll_top (T : Terminal) : (term_scroll_down T).scroll_top = T.scroll_top := rfl

/-- Field scroll_bottom is unchanged by term_scroll_down. -/
@[simp] theorem scroll_down_scroll_bottom (T : Terminal) : (term_scroll_down T).scroll_bottom = T.scroll_bottom := rfl

/-- Field hasMaster is unchanged by term_scroll_down. -/
@[simp] theorem scroll_down_hasMaster (T : Terminal) : (term_scroll_down T).hasMaster = T.hasMaster := rfl

/-- Field out is unchanged by term_scroll_down. -/
@[simp] theorem scroll_down_out (T : Terminal) : (term_scroll_down T).out = T.out := rfl

/-- Field state is unchanged by term_scroll_down. -/
@[simp] theorem scroll_down_state (T : Terminal) : (term_scroll_down T).state = T.state := rfl

/-- Field escape_params is unchanged by term_scroll_down. -/
@[simp] theorem scroll_down_escape_params (T : Terminal) : (term_scroll_down T).escape_params = T.escape_params := rfl

/-- Field num_escape_params is unchanged by term_scroll_down. -/
@[simp] theorem scroll_down_num_escape_params (T : Terminal) : (term_scroll_down T).num_escape_params = T.num_escape_params := rfl

/-- Field private_mode is unchanged by term_scroll_down. -/
@[simp] theorem scroll_down_private_mode (T : Terminal) : (term_scroll_down T).private_mode = T.private_mode := rfl

/-- Field utf8_buf is unchanged by term_scroll_down. -/
@[simp] theorem scroll_down_utf8_buf (T : Terminal) : (term_scroll_down T).utf8_buf = T.utf8_buf := rfl

/-- Field cols is unchanged by term_carriage_return. -/
@[simp] theorem cr_cols (T : Terminal) : (term_carriage_return T).cols = T.cols := rfl

/-- Field rows is unchanged by term_carriage_return. -/
@[simp] theorem cr_rows (T : Terminal) : (term_carriage_return T).rows = T.rows := rfl

/-- term_carriage_return zeroes cursor_x. -/
@[simp] theorem cr_cursor_x (T : Terminal) : (term_carriage_return T).cursor_x = 0 := rfl

/-- Field cursor_y is unchanged by term_carriage_return. -/
@[simp] theorem cr_cursor_y (T : Terminal) : (term_carriage_return T).cursor_y = T.cursor_y := rfl

/-- Field cursor_visible is unchanged by term_carriage_return. -/
@[simp] theorem cr_cursor_visible (T : Terminal) : (term_carriage_return T).cursor_visible = T.cursor_visible := rfl

/-- Field fg_color is unchanged by term_carriage_return. -/
@[simp] theorem cr_fg_color (T : Terminal) : (term_carriage_return T).fg_color = T.fg_color := rfl

/-- Field bg_color is unchanged by term_carriage_return. -/
@[simp] theorem cr_bg_color (T : Terminal) : (term_carriage_return T).bg_color = T.bg_color := rfl

/-- Field bold is unchanged by term_carriage_return. -/
@[simp] theorem cr_bold (T : Terminal) : (term_carriage_return T).bold = T.bold := rfl

/-- Field scroll_top is unchanged by term_carriage_return. -/
@[simp] theorem cr_scroll_top (T : Terminal) : (term_carriage_return T).scroll_top = T.scroll_top := rfl

/-- Field scroll_bottom is unchanged by term_carriage_return. -/
@[simp] theorem cr_scroll_bottom (T : Terminal) : (term_carriage_return T).scroll_bottom = T.scroll_bottom := rfl

/-- Field hasMaster is unchanged by term_carriage_return. -/
@[simp] theorem cr_hasMaster (T : Terminal) : (term_carriage_return T).hasMaster = T.hasMaster := rfl

/-- Field out is unchanged by term_carriage_return. -/
@[simp] theorem cr_out (T : Terminal) : (term_carriage_return T).out = T.out := rfl

/-- Field state is unchanged by term_carriage_return. -/
@[simp] theorem cr_state (T : Terminal) : (term_carriage_return T).state = T.state := rfl

/-- Field escape_params is unchanged by term_carriage_return. -/
@[simp] theorem cr_escape_params (T : Terminal) : (term_carriage_return T).escape_params = T.escape_params := rfl

/-- Field num_escape_params is unchanged by term_carriage_return. -/
@[simp] theorem cr_num_escape_params (T : Terminal) : (term_carriage_return T).num_escape_params = T.num_escape_params := rfl

/-- Field private_mode is unchanged by term_carriage_return. -/
@[simp] theorem cr_private_mode (T : Terminal) : (term_carriage_return T).private_mode = T.private_mode := rfl

/-- Field utf8_buf is unchanged by term_carriage_return. -/
@[simp] theorem cr_utf8_buf (T : Terminal) : (term_carriage_return T).utf8_buf = T.utf8_buf := rfl

/-- Cells are unchanged by term_carriage_return. -/
@[simp] theorem cr_cells (T : Terminal) : (term_carriage_return T).cells = T.cells := rfl

/-- Field cols is unchanged by term_putchar_store. -/
@[simp] theorem store_cols (T : Terminal) (cp : Nat) : (term_putchar_store T cp).cols = T.cols := rfl

/-- Field rows is unchanged by term_putchar_store. -/
@[simp] theorem store_rows (T : Terminal) (cp : Nat) : (term_putchar_store T cp).rows = T.rows := rfl

/-- term_putchar_store advances cursor_x. -/
@[simp] theorem store_cursor_x (T : Terminal) (cp : Nat) : (term_putchar_store T cp).cursor_x = T.cursor_x + 1 := rfl

/-- Field cursor_y is unchanged by term_putchar_store. -/
@[simp] theorem store_cursor_y (T : Terminal) (cp : Nat) : (term_putchar_store T cp).cursor_y = T.cursor_y := rfl

/-- Field cursor_visible is unchanged by term_putchar_store. -/
@[simp] theorem store_cursor_visible (T : Terminal) (cp : Nat) : (term_putchar_store T cp).cursor_visible = T.cursor_visible := rfl

/-- Field fg_color is unchanged by term_putchar_store. -/
@[simp] theorem store_fg_color (T : Terminal) (cp : Nat) : (term_putchar_store T cp).fg_color = T.fg_color := rfl

/-- Field bg_color is unchanged by term_putchar_store. -/
@[simp] theorem store_bg_color (T : Terminal) (cp : Nat) : (term_putchar_store T cp).bg_color = T.bg_color := rfl

/-- Field bold is unchanged by term_putchar_store. -/
@[simp] theorem store_bold (T : Terminal) (cp : Nat) : (term_putchar_store T cp).bold = T.bold := rfl

/-- Field scroll_top is unchanged by term_putchar_store. -/
@[simp] theorem store_scroll_top (T : Terminal) (cp : Nat) : (term_putchar_store T cp).scroll_top = T.scroll_top := rfl

/-- Field scroll_bottom is unchanged by term_putchar_store. -/
@[simp] theorem store_scroll_bottom (T : Terminal) (cp : Nat) : (term_putchar_store T cp).scroll_bottom = T.scroll_bottom := rfl

/-- Field hasMaster is unchanged by term_putchar_store. -/
@[simp] theorem store_hasMaster (T : Terminal) (cp : Nat) : (term_putchar_store T cp).hasMaster = T.hasMaster := rfl

/-- Field out is unchanged by term_putchar_store. -/
@[simp] theorem store_out (T : Terminal) (cp : Nat) : (term_putchar_store T cp).out = T.out := rfl

/-- Field state is unchanged by term_putchar_store. -/
@[simp] theorem store_state (T : Terminal) (cp : Nat) : (term_putchar_store T cp).state = T.state := rfl

/-- Field escape_params is unchanged by term_putchar_store. -/
@[simp] theorem store_escape_params (T : Terminal) (cp : Nat) : (term_putchar_store T cp).escape_params = T.escape_params := rfl

/-- Field num_escape_params is unchanged by term_putchar_store. -/
@[simp] theorem store_num_escape_params (T : Terminal) (cp : Nat) : (term_putchar_store T cp).num_escape_params = T.num_escape_params := rfl

/-- Field private_mode is unchanged by term_putchar_store. -/
@[simp] theorem store_private_mode (T : Terminal) (cp : Nat) : (term_putchar_store T cp).private_mode = T.private_mode := rfl

/-- Field utf8_buf is unchanged by term_putchar_store. -/
@[simp] theorem store_utf8_buf (T : Terminal) (cp : Nat) : (term_putchar_store T cp).utf8_buf = T.utf8_buf := rfl

/-- Field cols is unchanged by term_newline. -/
@[simp] theorem newline_cols (T : Terminal) : (term_newline T).cols = T.cols := by
  unfold term_newline; split <;> rfl

/-- Field rows is unchanged by term_newline. -/
@[simp] theorem newline_rows (T : Terminal) : (term_newline T).rows = T.rows := by
  unfold term_newline; split <;> rfl

/-- Field cursor_x is unchanged by term_newline. -/
@[simp] theorem newline_cursor_x (T : Terminal) : (term_newline T).cursor_x = T.cursor_x := by
  unfold term_newline; split <;> rfl

/-- Field cursor_visible is unchanged by term_newline. -/
@[simp] theorem newline_cursor_visible (T : Terminal) : (term_newline T).cursor_visible = T.cursor_visible := by
  unfold term_newline; split <;> rfl

/-- Field fg_color is unchanged by term_newline. -/
@[simp] theorem newline_fg_color (T : Terminal) : (term_newline T).fg_color = T.fg_color := by
  unfold term_newline; split <;> rfl

/-- Field bg_color is unchanged by term_newline. -/
@[simp] theorem newline_bg_color (T : Terminal) : (term_newline T).bg_color = T.bg_color := by
  unfold term_newline; split <;> rfl

/-- Field bold is unchanged by term_newline. -/
@[simp] theorem newline_bold (T : Terminal) : (term_newline T).bold = T.bold := by
  unfold term_newline; split <;> rfl

/-- Field scroll_top is unchanged by term_newline. -/
@[simp] theorem newline_scroll_top (T : Terminal) : (term_newline T).scroll_top = T.scroll_top := by
  unfold term_newline; split <;> rfl

/-- Field scroll_bottom is unchanged by term_newline. -/
@[simp] theorem newline_scroll_bottom (T : Terminal) : (term_newline T).scroll_bottom = T.scroll_bottom := by
  unfold term_newline; split <;> rfl

/-- Field hasMaster is unchanged by term_newline. -/
@[simp] theorem newline_hasMaster (T : Terminal) : (term_newline T).hasMaster = T.hasMaster := by
  unfold term_newline; split <;> rfl

/-- Field out is unchanged by term_newline. -/
@[simp] theorem newline_out (T : Terminal) : (term_newline T).out = T.out := by
  unfold term_newline; split <;> rfl

/-- Field state is unchanged by term_newline. -/
@[simp] theorem newline_state (T : Terminal) : (term_newline T).state = T.state := by
  unfold term_newline; split <;> rfl

/-- Field escape_params is unchanged by term_newline. -/
@[simp] theorem newline_escape_params (T : Terminal) : (term_newline T).escape_params = T.escape_params := by
  unfold term_newline; split <;> rfl

/-- Field num_escape_params is unchanged by term_newline. -/
@[simp] theorem newline_num_escape_params (T : Terminal) : (term_newline T).num_escape_params = T.num_escape_params := by
  unfold term_newline; split <;> rfl

/-- Field private_mode is unchanged by term_newline. -/
@[simp] theorem newline_private_mode (T : Terminal) : (term_newline T).private_mode = T.private_mode := by
  unfold term_newline; split <;> rfl

/-- Field utf8_buf is unchanged by term_newline. -/
@[simp] theorem newline_utf8_buf (T : Terminal) : (term_newline T).utf8_buf = T.utf8_buf := by
  unfold term_newline; split <;> rfl

/-- Cursor row after term_newline: incremented, clamped to scroll_bottom. -/
theorem newline_cursor_y (T : Terminal) : (term_newline T).cursor_y = if T.scroll_bottom < T.cursor_y + 1 then T.scroll_bottom else T.cursor_y + 1 := by
  unfold term_newline; split <;> rfl

end FbTerm

namespace FbTerm

/-! ## C3: pending-wrap boundary behaviour of term_putchar -/

/-- C3: writing at cursor_x = cols-1 stores the glyph in that cell and
advances cursor_x to cols; a write arriving with cursor_x = cols first
performs carriage return and newline, then stores the cell at column 0 of
the resulting row and leaves cursor_x = 1. -/
theorem c3_pending_wrap (T : Terminal) (cp : Nat) (hc : 0 < T.cols)
    (hy : T.cursor_y < T.rows) (hsb : T.scroll_bottom < T.rows) :
    (T.cursor_x = T.cols - 1 →
      (term_putchar T cp).cells T.cursor_y T.cursor_x =
        { codepoint := cp, fg_color := T.fg_color, bg_color := T.bg_color,
          bold := T.bold } ∧
      (term_putchar T cp).cursor_x = T.cols) ∧
    (T.cursor_x = T.cols →
      term_putchar T cp =
        term_putchar_write (term_newline (term_carriage_return T)) cp ∧
      (term_putchar T cp).cells
          (term_newline (term_carriage_return T)).cursor_y 0 =
        { codepoint := cp, fg_color := T.fg_color, bg_color := T.bg_color,
          bold := T.bold } ∧
      (term_putchar T cp).cursor_x = 1) := by
  constructor
  · intro hx
    unfold term_putchar
    rw [if_neg (by omega)]
    unfold term_putchar_write
    rw [if_neg (by omega)]
    constructor
    · simp [term_putchar_store]
    · simp; omega
  · intro hx
    have heq : term_putchar T cp =
        term_putchar_write (term_newline (term_carriage_return T)) cp := by
      unfold term_putchar
      rw [if_pos (by omega)]
    have hny : (term_newline (term_carriage_return T)).cursor_y < T.rows := by
      rw [newline_cursor_y]
      simp only [cr_scroll_bottom, cr_cursor_y]
      split <;> omega
    refine ⟨heq, ?_, ?_⟩
    · rw [heq]
      unfold term_putchar_write
      rw [if_neg (by simp; omega)]
      simp [term_putchar_store]
    · rw [heq]
      unfold term_putchar_write
      rw [if_neg (by simp; omega)]
      simp

end FbTerm

namespace FbTerm

/-- C3 witness: the wrap behaviour at a concrete 2-column, 2-row state with
the cursor in the last column, writing the letter A. -/
theorem c3_pending_wrap_witness :
    let T : Terminal := { term_init 2 2 with cursor_x := 1 }
    (T.cursor_x = T.cols - 1 →
      (term_putchar T 65).cells T.cursor_y T.cursor_x =
        { codepoint := 65, fg_color := T.fg_color, bg_color := T.bg_color,
          bold := T.bold } ∧
      (term_putchar T 65).cursor_x = T.cols) ∧
    (T.cursor_x = T.cols →
      term_putchar T 65 =
        term_putchar_write (term_newline (term_carriage_return T)) 65 ∧
      (term_putchar T 65).cells
          (term_newline (term_carriage_return T)).cursor_y 0 =
        { codepoint := 65, fg_color := T.fg_color, bg_color := T.bg_color,
          bold := T.bold } ∧
      (term_putchar T 65).cursor_x = 1) :=
  c3_pending_wrap { term_init 2 2 with cursor_x := 1 } 65 (by decide) (by decide)
    (by decide)

end FbTerm

namespace FbTerm

/-! ## C5: ESC ( handling -/

/-- C5 (divergence witness): after ESC '(' the parser returns to Normal
immediately, so the following byte is NOT discarded: processing
1B 28 42 (ESC ( B) from the initial state prints 'B' into cell (0,0) and
advances the cursor, contradicting both the spec and the source comment
"Character set selection - ignore next char". -/
theorem c5_charset_byte_not_discarded :
    ((processBytes (term_init 80 24) [27, 40, 66]).cells 0 0).codepoint = 66 ∧
    (processBytes (term_init 80 24) [27, 40, 66]).cursor_x = 1 ∧
    (processBytes (term_init 80 24) [27, 40, 66]).state = PState.normal := by
  refine ⟨rfl, rfl, rfl⟩

/-! ## C6: cell codepoint validity -/

/-- C6 (counterexample): the three bytes ED A0 80 — the UTF-8 pattern of the
surrogate U+D800, every byte ≥ 0x20 — are accepted and the decoded value
0xD800 is stored in cell (0,0): the stored codepoint is neither ' ' nor a
valid Unicode scalar value. -/
theorem c6_surrogate_counterexample :
    ((processBytes (term_init 80 24) [237, 160, 128]).cells 0 0).codepoint = 0xD800 ∧
    ¬(((processBytes (term_init 80 24) [237, 160, 128]).cells 0 0).codepoint = 32 ∨
      (((processBytes (term_init 80 24) [237, 160, 128]).cells 0 0).codepoint ≤ 0x10FFFF ∧
       ¬(0xD800 ≤ ((processBytes (term_init 80 24) [237, 160, 128]).cells 0 0).codepoint ∧
         ((processBytes (term_init 80 24) [237, 160, 128]).cells 0 0).codepoint ≤ 0xDFFF))) := by
  refine ⟨rfl, ?_⟩
  decide

/-! ## C7: leading semicolon in CSI parameters -/

/-- C7 (counterexample): processing ESC [ ; 5 H from the initial state moves
the cursor to row 4, column 0 — not row 0, column 4: the first semicolon
raises the parameter count from 0 to 1, so the digit 5 lands in the FIRST
parameter slot. -/
theorem c7_leading_semicolon_counterexample :
    (processBytes (term_init 80 24) [27, 91, 59, 53, 72]).cursor_y = 4 ∧
    (processBytes (term_init 80 24) [27, 91, 59, 53, 72]).cursor_x = 0 ∧
    ¬((processBytes (term_init 80 24) [27, 91, 59, 53, 72]).cursor_y = 0 ∧
      (processBytes (term_init 80 24) [27, 91, 59, 53, 72]).cursor_x = 4) := by
  refine ⟨rfl, rfl, ?_⟩
  decide

/-! ## C9: CSI P (Delete Characters) write bounds -/

/-- C9 (divergence witness): with an 80-column grid, cursor at column 0 and
parameter 81, the blanking loop of the 'P' case starts at the int column
index cols - count = -1: the write-index set of the source loops contains
the out-of-bounds column -1. -/
theorem c9_delete_chars_out_of_bounds :
    (-1 : Int) ∈ csiP_writtenCols 0 80 81 ∧ ¬(0 ≤ (-1 : Int)) := by
  refine ⟨?_, by decide⟩
  decide

/-- C9 (positive part): whenever the count (which the source forces to be
at least 1) is at most cols and the cursor column is non-negative, every
written column index of the source loops lies within [0, cols). -/
theorem c9_delete_chars_in_bounds (cursor_x cols count : Int)
    (hx : 0 ≤ cursor_x) (h1 : 1 ≤ count) (hc : count ≤ cols) :
    ∀ i ∈ csiP_writtenCols cursor_x cols count, 0 ≤ i ∧ i < cols := by
  intro i hi
  unfold csiP_writtenCols intRange at hi
  rw [List.mem_append] at hi
  rcases hi with h | h
  all_goals
    rw [List.mem_map] at h
    obtain ⟨j, hj, hji⟩ := h
    rw [List.mem_range, Int.lt_toNat] at hj
    subst hji
    omega

end FbTerm

namespace FbMap

/-! ## C10: Ctrl+letter mapping -/

/-- C10 (counterexample): with Ctrl held, the B key produces no output at
all — KEY_B (48) is outside the range KEY_A..KEY_Z (30..44) tested by the
letter branch and is not one of the ten Ctrl-mapped keys — so Ctrl+B does
not produce the C0 byte 0x02. -/
theorem c10_ctrl_b_counterexample :
    kb_get_sequence true false KEY_B = [] ∧
    kb_get_sequence true false KEY_B ≠ [0x02] := by
  refine ⟨rfl, ?_⟩
  decide

/-- C10 (amended): exactly the ten letters C, D, Z, L, A, E, K, U, W, R are
mapped to their C0 control bytes while Ctrl is held (independently of
Shift); the other sixteen letters are not: keys on the Q row and the
Z row outside the mapped set produce nothing, and keys in the keycode
range 30..44 produce a plain (mis-indexed) letter. -/
theorem c10_ctrl_letters_mapped :
    kb_get_sequence true false KEY_C = [0x03] ∧ kb_get_sequence true true KEY_C = [0x03] ∧
    kb_get_sequence true false KEY_D = [0x04] ∧ kb_get_sequence true true KEY_D = [0x04] ∧
    kb_get_sequence true false KEY_Z = [0x1A] ∧ kb_get_sequence true true KEY_Z = [0x1A] ∧
    kb_get_sequence true false KEY_L = [0x0C] ∧ kb_get_sequence true true KEY_L = [0x0C] ∧
    kb_get_sequence true false KEY_A = [0x01] ∧ kb_get_sequence true true KEY_A = [0x01] ∧
    kb_get_sequence true false KEY_E = [0x05] ∧ kb_get_sequence true true KEY_E = [0x05] ∧
    kb_get_sequence true false KEY_K = [0x0B] ∧ kb_get_sequence true true KEY_K = [0x0B] ∧
    kb_get_sequence true false KEY_U = [0x15] ∧ kb_get_sequence true true KEY_U = [0x15] ∧
    kb_get_sequence true false KEY_W = [0x17] ∧ kb_get_sequence true true KEY_W = [0x17] ∧
    kb_get_sequence true false KEY_R = [0x12] ∧ kb_get_sequence true true KEY_R = [0x12] ∧
    kb_get_sequence true false KEY_B = [] ∧
    kb_get_sequence true false KEY_N = [] ∧
    kb_get_sequence true false KEY_X = [] ∧
    kb_get_sequence true false KEY_V = [] ∧
    kb_get_sequence true false KEY_M = [] ∧
    kb_get_sequence true false KEY_Q = [] ∧
    kb_get_sequence true false KEY_T = [] ∧
    kb_get_sequence true false KEY_Y = [] ∧
    kb_get_sequence true false KEY_I = [] ∧
    kb_get_sequence true false KEY_O = [] ∧
    kb_get_sequence true false KEY_P = [] ∧
    kb_get_sequence true false KEY_S = [98] ∧
    kb_get_sequence true false KEY_F = [100] ∧
    kb_get_sequence true false KEY_G = [101] ∧
    kb_get_sequence true false KEY_H = [102] ∧
    kb_get_sequence true false KEY_J = [103] := by
  decide

end FbMap

namespace FbTerm

/-! ## C8: scroll up/down cancellation -/

/-- C8 (counterexample): on a 1×3 grid whose full-height scroll region has a
blank top row and blank bottom row (blank with respect to the current SGR
colors) but a bold glyph in the interior row, ESC[1S followed immediately by
ESC[1T does not restore cell (0,0): the clearing loops of the scroll
operations never write the bold field, so the interior row's bold flag leaks
into the cleared top row. -/
theorem c8_scroll_cancel_counterexample :
    (processBytes (term_init 1 3)
        [27, 91, 50, 59, 49, 72, 27, 91, 49, 109, 65]).scroll_top = 0 ∧
    (processBytes (term_init 1 3)
        [27, 91, 50, 59, 49, 72, 27, 91, 49, 109, 65]).scroll_bottom = 2 ∧
    (processBytes (term_init 1 3)
        [27, 91, 50, 59, 49, 72, 27, 91, 49, 109, 65]).fg_color = 0x00FFFFFF ∧
    (processBytes (term_init 1 3)
        [27, 91, 50, 59, 49, 72, 27, 91, 49, 109, 65]).bg_color = 0 ∧
    (processBytes (term_init 1 3)
        [27, 91, 50, 59, 49, 72, 27, 91, 49, 109, 65]).cells 0 0 =
      { codepoint := 32, fg_color := 0x00FFFFFF, bg_color := 0, bold := 0 } ∧
    (processBytes (term_init 1 3)
        [27, 91, 50, 59, 49, 72, 27, 91, 49, 109, 65]).cells 2 0 =
      { codepoint := 32, fg_color := 0x00FFFFFF, bg_color := 0, bold := 0 } ∧
    (processBytes
        (processBytes (term_init 1 3)
          [27, 91, 50, 59, 49, 72, 27, 91, 49, 109, 65])
        [27, 91, 49, 83, 27, 91, 49, 84]).cells 0 0 ≠
      (processBytes (term_init 1 3)
        [27, 91, 50, 59, 49, 72, 27, 91, 49, 109, 65]).cells 0 0 := by
  refine ⟨rfl, rfl, rfl, rfl, rfl, rfl, ?_⟩
  decide

end FbTerm

namespace FbTerm

/-! ## Parser step lemmas -/

/-- Folding over an appended byte list processes the two parts in order. -/
theorem processBytes_append (T : Terminal) (a b : List Nat) :
    processBytes T (a ++ b) = processBytes (processBytes T a) b := by
  unfold processBytes
  rw [List.foldl_append]

/-- Processing a single byte. -/
theorem processBytes_cons (T : Terminal) (b : Nat) (bs : List Nat) :
    processBytes T (b :: bs) = processBytes (term_process_char T b) bs := rfl

/-- Processing the empty byte list. -/
theorem processBytes_nil (T : Terminal) : processBytes T [] = T := rfl

/-- ESC received in Normal state. -/
theorem process_esc_start (T : Terminal) (hst : T.state = .normal) :
    term_process_char T 27 = { T with state := .esc, utf8_buf := [] } := by
  unfold term_process_char
  rw [hst]
  rfl

/-- A left bracket received in Esc state enters CSI with a clean parameter
vector. -/
theorem process_csi_enter (T : Terminal) (hst : T.state = .esc) :
    term_process_char T 91 =
      { T with state := .csi, num_escape_params := 0, private_mode := false,
               escape_params := fun _ => 0 } := by
  unfold term_process_char
  rw [hst]
  rfl

/-- A digit received in CSI state: if the parameter count is zero it becomes
one, and the digit is accumulated into the current (count-1) slot. -/
theorem process_csi_digit (T : Terminal) (ch : Nat) (hst : T.state = .csi)
    (h1 : 48 ≤ ch) (h2 : ch ≤ 57) :
    term_process_char T ch =
      { T with
        num_escape_params := if T.num_escape_params = 0 then 1 else T.num_escape_params,
        escape_params :=
          setParam T.escape_params
            ((if T.num_escape_params = 0 then 1 else T.num_escape_params) - 1)
            (T.escape_params
              ((if T.num_escape_params = 0 then 1 else T.num_escape_params) - 1) * 10 +
             (ch - 48)) } := by
  unfold term_process_char
  rw [hst]
  dsimp only
  rw [if_pos (⟨h1, h2⟩ : 48 ≤ ch ∧ ch ≤ 57)]

/-- A semicolon received in CSI state below the parameter cap. -/
theorem process_csi_semicolon (T : Terminal) (hst : T.state = .csi)
    (h : T.num_escape_params < 16) :
    term_process_char T 59 =
      { T with num_escape_params := T.num_escape_params + 1 } := by
  unfold term_process_char
  rw [hst]
  dsimp only
  rw [if_neg (by omega : ¬(48 ≤ 59 ∧ 59 ≤ 57))]
  rw [if_pos rfl, if_pos h]

/-- A final byte received in CSI state dispatches the CSI op and returns to
Normal. -/
theorem process_csi_final (T : Terminal) (ch : Nat) (hst : T.state = .csi)
    (h1 : 64 ≤ ch) (h2 : ch ≤ 126) :
    term_process_char T ch =
      { term_handle_csi T ch with state := .normal, private_mode := false } := by
  unfold term_process_char
  rw [hst]
  dsimp only
  rw [if_neg (by omega : ¬(48 ≤ ch ∧ ch ≤ 57))]
  rw [if_neg (by omega : ¬ch = 59)]
  rw [if_neg (by omega : ¬ch = 63)]
  rw [if_pos (⟨h1, h2⟩ : 64 ≤ ch ∧ ch ≤ 126)]

/-- A printable byte received in Normal state feeds the UTF-8 accumulator
and fires term_putchar once the expected length is reached. -/
theorem process_printable (T : Terminal) (b : Nat) (hst : T.state = .normal)
    (hb : 32 ≤ b) :
    term_process_char T b =
      (if utf8_expected_len ((T.utf8_buf ++ [b]).headD 0) ≤ (T.utf8_buf ++ [b]).length
       then { term_putchar T (utf8_decode (T.utf8_buf ++ [b])) with utf8_buf := [] }
       else { T with utf8_buf := T.utf8_buf ++ [b] }) := by
  unfold term_process_char
  rw [hst]
  dsimp only
  rw [if_neg (by omega : ¬b = 27)]
  rw [if_neg (by omega : ¬b = 10)]
  rw [if_neg (by omega : ¬b = 13)]
  rw [if_neg (by omega : ¬b = 8)]
  rw [if_neg (by omega : ¬b = 9)]
  rw [if_pos hb]

end FbTerm

namespace FbTerm

/-! ## CSI parameter digit accumulation -/

/-- Updating the same slot twice keeps only the second value. -/
theorem setParam_setParam (p : Nat → Nat) (i v w : Nat) :
    setParam (setParam p i v) i w = setParam p i w := by
  funext j
  unfold setParam
  split <;> rfl

/-- Writing a slot's current value back is the identity. -/
theorem setParam_id (p : Nat → Nat) (i : Nat) : setParam p i (p i) = p := by
  funext j
  unfold setParam
  split
  · rename_i h; rw [h]
  · rfl

/-- Reading the updated slot. -/
theorem setParam_eval (p : Nat → Nat) (i v : Nat) : setParam p i v i = v := by
  simp [setParam]

/-- paramFold over a reversed little-endian digit list recovers the value. -/
theorem paramFold_reverse (L : List Nat) :
    ∀ v, paramFold v L.reverse = v * 10 ^ L.length + Nat.ofDigits 10 L := by
  induction L with
  | nil => intro v; simp [paramFold, Nat.ofDigits]
  | cons d L ih =>
    intro v
    rw [List.reverse_cons]
    have h1 : paramFold v (L.reverse ++ [d]) = paramFold v L.reverse * 10 + d := by
      unfold paramFold
      rw [List.foldl_append]
      rfl
    rw [h1, ih v, Nat.ofDigits_cons]
    simp only [List.length_cons, pow_succ]
    ring

/-- Processing a run of digit bytes in CSI state with at least one
parameter slot open accumulates them into the current slot. -/
theorem process_digit_list (T : Terminal) (ds : List Nat) (hst : T.state = .csi)
    (hm : 1 ≤ T.num_escape_params) (hds : ∀ d ∈ ds, d ≤ 9) :
    processBytes T (ds.map (· + 48)) =
      { T with
          escape_params :=
            setParam T.escape_params (T.num_escape_params - 1)
              (paramFold (T.escape_params (T.num_escape_params - 1)) ds) } := by
  induction ds generalizing T with
  | nil =>
    have h : setParam T.escape_params (T.num_escape_params - 1)
        (paramFold (T.escape_params (T.num_escape_params - 1)) []) =
        T.escape_params := by
      have h0 : paramFold (T.escape_params (T.num_escape_params - 1)) [] =
          T.escape_params (T.num_escape_params - 1) := rfl
      rw [h0, setParam_id]
    rw [List.map_nil, processBytes_nil, h]
  | cons d ds ih =>
    rw [List.map_cons, processBytes_cons]
    rw [process_csi_digit T (d + 48) hst (by omega)
      (by have := hds d (by simp); omega)]
    simp only [if_neg (by omega : ¬T.num_escape_params = 0),
      Nat.add_sub_cancel]
    rw [ih _ (by simpa using hst) (by simpa using hm)
      (fun e he => hds e (by simp [he]))]
    simp only [setParam_eval, setParam_setParam]
    rfl

/-- Processing the decimal digits of a value k ≥ 1 in CSI state with no
parameters yet: the count becomes 1 and the first slot holds k. -/
theorem process_number_first (T : Terminal) (k : Nat) (hst : T.state = .csi)
    (h0 : T.num_escape_params = 0) (hp0 : T.escape_params 0 = 0) (hk : 1 ≤ k) :
    processBytes T (decDigits k) =
      { T with num_escape_params := 1,
               escape_params := setParam T.escape_params 0 k } := by
  have hnil : (Nat.digits 10 k).reverse ≠ [] := by
    simp only [ne_eq, List.reverse_eq_nil_iff]
    exact Nat.digits_ne_nil_iff_ne_zero.mpr (by omega)
  obtain ⟨d0, ds', hds⟩ := List.exists_cons_of_ne_nil hnil
  have hmem : ∀ d ∈ d0 :: ds', d ≤ 9 := by
    intro d hd
    rw [← hds] at hd
    rw [List.mem_reverse] at hd
    have := Nat.digits_lt_base (by omega) hd
    omega
  unfold decDigits
  rw [hds, List.map_cons, processBytes_cons]
  rw [process_csi_digit T (d0 + 48) hst (by omega)
    (by have := hmem d0 (by simp); omega)]
  simp only [if_pos h0, Nat.add_sub_cancel]
  rw [process_digit_list _ ds' (by simpa using hst) (by simp)
    (fun e he => hmem e (by simp [he]))]
  simp only [setParam_eval, setParam_setParam, Nat.sub_self]
  have hval : paramFold (T.escape_params 0 * 10 + d0) ds' = k := by
    have h1 : paramFold 0 ((Nat.digits 10 k).reverse) = k := by
      rw [paramFold_reverse]
      simp [Nat.ofDigits_digits]
    rw [hds] at h1
    have h2 : paramFold 0 (d0 :: ds') = paramFold d0 ds' := by
      unfold paramFold
      norm_num
    rw [hp0]
    rw [h2] at h1
    simpa using h1
  rw [hval]

/-- Processing the decimal digits of a value k in CSI state with the
current slot open and holding zero: the slot receives k. -/
theorem process_number_next (T : Terminal) (k : Nat) (hst : T.state = .csi)
    (hm : 1 ≤ T.num_escape_params)
    (hcur : T.escape_params (T.num_escape_params - 1) = 0) :
    processBytes T (decDigits k) =
      { T with
          escape_params :=
            setParam T.escape_params (T.num_escape_params - 1) k } := by
  have hmem : ∀ d ∈ (Nat.digits 10 k).reverse, d ≤ 9 := by
    intro d hd
    rw [List.mem_reverse] at hd
    have := Nat.digits_lt_base (by omega) hd
    omega
  unfold decDigits
  rw [process_digit_list T ((Nat.digits 10 k).reverse) hst hm hmem]
  rw [hcur]
  have h1 : paramFold 0 ((Nat.digits 10 k).reverse) = k := by
    rw [paramFold_reverse]
    simp [Nat.ofDigits_digits]
  rw [h1]

end FbTerm

namespace FbTerm

/-- C7 (amended): in CSI state a semicolon increments the parameter count
(capped at 16); when it arrives before any digit the count goes from 0 to
1, so subsequent digits accumulate into the FIRST parameter slot.
Consequently ESC [ ; 5 H from Normal state moves the cursor to row 4,
column 0 (1-based row 5, column 1), as if the leading semicolon were
absent. -/
theorem c7_leading_semicolon_amended (T : Terminal) (hst : T.state = .normal)
    (hr : 4 < T.rows) (hc : 0 < T.cols) :
    (processBytes T [27, 91, 59, 53, 72]).cursor_y = 4 ∧
    (processBytes T [27, 91, 59, 53, 72]).cursor_x = 0 := by
  rw [processBytes_cons, process_esc_start T hst]
  rw [processBytes_cons, process_csi_enter _ rfl]
  rw [processBytes_cons, process_csi_semicolon _ rfl (by simp)]
  rw [processBytes_cons, process_csi_digit _ 53 rfl (by decide) (by decide)]
  rw [processBytes_cons, process_csi_final _ 72 rfl (by decide) (by decide)]
  rw [processBytes_nil]
  unfold term_handle_csi
  norm_num [setParam]
  constructor <;> intro h <;> omega

/-- C7 witness: the amended semicolon-then-digit behaviour at the initial
80×24 state. -/
theorem c7_leading_semicolon_amended_witness :
    (processBytes (term_init 80 24) [27, 91, 59, 53, 72]).cursor_y = 4 ∧
    (processBytes (term_init 80 24) [27, 91, 59, 53, 72]).cursor_x = 0 :=
  c7_leading_semicolon_amended (term_init 80 24) rfl (by decide) (by decide)

end FbTerm

namespace FbTerm

/-- Processing a singleton byte list. -/
theorem processBytes_one (T : Terminal) (b : Nat) :
    processBytes T [b] = term_process_char T b := rfl

/-- ESC [ from Normal state enters CSI with a clean parameter vector. -/
theorem process_csi_lead (T : Terminal) (hst : T.state = .normal) :
    processBytes T [27, 91] =
      { T with state := .csi, utf8_buf := [], num_escape_params := 0,
               private_mode := false, escape_params := fun _ => 0 } := by
  rw [processBytes_cons, process_esc_start T hst, processBytes_one,
    process_csi_enter _ rfl]

/-- C4: for 1-based coordinates y ≤ rows, x ≤ cols, processing ESC[y;xH
followed by ESC[6n appends to the PTY-master output exactly the bytes
ESC [ digits(y) ; digits(x) R. -/
theorem c4_cpr_roundtrip (T : Terminal) (y x : Nat) (hst : T.state = .normal)
    (hm : T.hasMaster = true) (hy1 : 1 ≤ y) (hy2 : y ≤ T.rows)
    (hx1 : 1 ≤ x) (hx2 : x ≤ T.cols) :
    (processBytes T
        ([27, 91] ++ decDigits y ++ [59] ++ decDigits x ++ [72, 27, 91, 54, 110])).out =
      T.out ++ [27, 91] ++ decDigits y ++ [59] ++ decDigits x ++ [82] := by
  rw [processBytes_append, processBytes_append, processBytes_append,
    processBytes_append]
  rw [process_csi_lead T hst]
  rw [process_number_first _ y rfl rfl rfl (by omega)]
  rw [processBytes_one, process_csi_semicolon _ rfl (by simp)]
  rw [process_number_next _ x rfl (by simp) (by simp [setParam])]
  rw [processBytes_cons, process_csi_final _ 72 rfl (by decide) (by decide)]
  rw [processBytes_cons, process_esc_start _ rfl]
  rw [processBytes_cons, process_csi_enter _ rfl]
  rw [processBytes_cons, process_csi_digit _ 54 rfl (by decide) (by decide)]
  rw [processBytes_one, process_csi_final _ 110 rfl (by decide) (by decide)]
  have hy0 : 0 < y := by omega
  have hx0 : 0 < x := by omega
  have hyc : ¬(T.rows ≤ y - 1) := by omega
  have hxc : ¬(T.cols ≤ x - 1) := by omega
  have hy1' : y - 1 + 1 = y := by omega
  have hx1' : x - 1 + 1 = x := by omega
  unfold term_handle_csi
  norm_num [setParam, hm, hy0, hx0, hyc, hxc, hy1', hx1']

end FbTerm

namespace FbTerm

/-- C4 witness: from the initial 80×24 state with a PTY master attached,
ESC[3;10H ESC[6n replies ESC[3;10R. -/
theorem c4_cpr_roundtrip_witness :
    (processBytes { term_init 80 24 with hasMaster := true }
        ([27, 91] ++ decDigits 3 ++ [59] ++ decDigits 10 ++
         [72, 27, 91, 54, 110])).out =
      ({ term_init 80 24 with hasMaster := true } : Terminal).out ++ [27, 91] ++
        decDigits 3 ++ [59] ++ decDigits 10 ++ [82] :=
  c4_cpr_roundtrip { term_init 80 24 with hasMaster := true } 3 10 rfl rfl
    (by decide) (by decide) (by decide) (by decide)

end FbTerm

namespace FbTerm

/-! ## UTF-8 decoding arithmetic -/

/-- Disjoint bitwise-or is addition: a shifted value or-ed with a value
below the shift is their sum. -/
theorem or_mul_pow (a k b : Nat) (hb : b < 2 ^ k) :
    (a * 2 ^ k) ||| b = a * 2 ^ k + b := by
  rw [Nat.mul_comm]
  exact (Nat.mul_add_lt_is_or hb a).symm

/-- Mask facts for canonical two-byte leading bytes. -/
theorem byte2_facts : ∀ q < 32,
    (192 + q) &&& 128 = 128 ∧ (192 + q) &&& 224 = 192 ∧ (192 + q) &&& 31 = q := by
  decide

/-- Mask facts for continuation bytes. -/
theorem cont_facts : ∀ r < 64,
    (128 + r) &&& 192 = 128 ∧ (128 + r) &&& 63 = r := by
  decide

/-- Mask facts for canonical three-byte leading bytes. -/
theorem byte3_facts : ∀ h < 16,
    (224 + h) &&& 128 = 128 ∧ (224 + h) &&& 224 = 224 ∧
    (224 + h) &&& 240 = 224 ∧ (224 + h) &&& 15 = h := by
  decide

/-- Mask facts for canonical four-byte leading bytes. -/
theorem byte4_facts : ∀ f < 8,
    (240 + f) &&& 128 = 128 ∧ (240 + f) &&& 224 = 224 ∧
    (240 + f) &&& 240 = 240 ∧ (240 + f) &&& 248 = 240 ∧ (240 + f) &&& 7 = f := by
  decide

/-- ASCII bytes have a clear top bit. -/
theorem ascii_and : ∀ c < 128, c &&& 128 = 0 := by
  decide

/-- Expected lengths computed from canonical leading bytes. -/
theorem expected_len_one : ∀ c < 128, utf8_expected_len c = 1 := by
  decide

/-- Expected length of a canonical two-byte leading byte. -/
theorem expected_len_two : ∀ q < 32, utf8_expected_len (192 + q) = 2 := by
  decide

/-- Expected length of a canonical three-byte leading byte. -/
theorem expected_len_three : ∀ h < 16, utf8_expected_len (224 + h) = 3 := by
  decide

/-- Expected length of a canonical four-byte leading byte. -/
theorem expected_len_four : ∀ f < 8, utf8_expected_len (240 + f) = 4 := by
  decide

/-- Decoding a single ASCII byte. -/
theorem utf8_decode_one (cp : Nat) (h1 : 32 ≤ cp) (h2 : cp < 128) :
    utf8_decode [cp] = cp := by
  have f := ascii_and cp h2
  simp only [utf8_decode, f]
  simp
  omega

/-- Decoding the canonical two-byte encoding. -/
theorem utf8_decode_two (cp : Nat) (h1 : 128 ≤ cp) (h2 : cp < 2048) :
    utf8_decode [192 + cp / 64, 128 + cp % 64] = cp := by
  obtain ⟨f1, f2, f3⟩ := byte2_facts (cp / 64) (by omega)
  obtain ⟨g1, g2⟩ := cont_facts (cp % 64) (by omega)
  simp only [utf8_decode, f1, f2, f3, g1, g2, if_true, and_true]
  rw [if_pos (show (128 : Nat) + cp % 64 ≠ 0 by omega)]
  rw [Nat.shiftLeft_eq]
  rw [or_mul_pow (cp / 64) 6 (cp % 64) (by omega)]
  rw [if_neg (by omega : ¬192 + cp / 64 = 0)]
  rw [if_neg (by norm_num : ¬(128 : Nat) = 0)]
  have h26 : (2 : Nat) ^ 6 = 64 := by norm_num
  rw [h26]
  omega

/-- Decoding the canonical three-byte encoding. -/
theorem utf8_decode_three (cp : Nat) (h1 : 2048 ≤ cp) (h2 : cp < 65536) :
    utf8_decode [224 + cp / 4096, 128 + cp / 64 % 64, 128 + cp % 64] = cp := by
  obtain ⟨f1, f2, f3, f4⟩ := byte3_facts (cp / 4096) (by omega)
  obtain ⟨g1, g2⟩ := cont_facts (cp / 64 % 64) (by omega)
  obtain ⟨g3, g4⟩ := cont_facts (cp % 64) (by omega)
  simp only [utf8_decode, f1, f2, f3, f4, g1, g2, g3, g4]
  rw [if_neg (by norm_num : ¬(224 : Nat) = 192)]
  simp only [if_true, and_true]
  rw [if_pos (show (128 : Nat) + cp / 64 % 64 ≠ 0 by omega)]
  rw [if_pos (show (128 : Nat) + cp % 64 ≠ 0 by omega)]
  rw [Nat.shiftLeft_eq, Nat.shiftLeft_eq]
  rw [or_mul_pow (cp / 4096) 12 (cp / 64 % 64 * 2 ^ 6) (by norm_num; omega)]
  have hsplit : cp / 4096 * 2 ^ 12 + cp / 64 % 64 * 2 ^ 6 =
      (cp / 4096 * 64 + cp / 64 % 64) * 2 ^ 6 := by ring
  rw [hsplit]
  rw [or_mul_pow _ 6 (cp % 64) (by omega)]
  rw [if_neg (by omega : ¬224 + cp / 4096 = 0)]
  rw [if_neg (by norm_num : ¬(128 : Nat) = 0)]
  have h26 : (2 : Nat) ^ 6 = 64 := by norm_num
  rw [h26]
  omega

/-- Decoding the canonical four-byte encoding. -/
theorem utf8_decode_four (cp : Nat) (h1 : 65536 ≤ cp) (h2 : cp < 2097152) :
    utf8_decode
      [240 + cp / 262144, 128 + cp / 4096 % 64, 128 + cp / 64 % 64, 128 + cp % 64] =
      cp := by
  obtain ⟨f1, f2, f3, f4, f5⟩ := byte4_facts (cp / 262144) (by omega)
  obtain ⟨g1, g2⟩ := cont_facts (cp / 4096 % 64) (by omega)
  obtain ⟨g3, g4⟩ := cont_facts (cp / 64 % 64) (by omega)
  obtain ⟨g5, g6⟩ := cont_facts (cp % 64) (by omega)
  simp only [utf8_decode, f1, f2, f3, f4, f5, g1, g2, g3, g4, g5, g6]
  rw [if_neg (by norm_num : ¬(224 : Nat) = 192)]
  rw [if_neg (by norm_num : ¬(240 : Nat) = 224)]
  simp only [if_true, and_true]
  rw [if_pos (show (128 : Nat) + cp / 4096 % 64 ≠ 0 by omega)]
  rw [if_pos (show (128 : Nat) + cp / 64 % 64 ≠ 0 by omega)]
  rw [if_pos (show (128 : Nat) + cp % 64 ≠ 0 by omega)]
  rw [Nat.shiftLeft_eq, Nat.shiftLeft_eq, Nat.shiftLeft_eq]
  rw [or_mul_pow (cp / 262144) 18 (cp / 4096 % 64 * 2 ^ 12) (by norm_num; omega)]
  have hs1 : cp / 262144 * 2 ^ 18 + cp / 4096 % 64 * 2 ^ 12 =
      (cp / 262144 * 64 + cp / 4096 % 64) * 2 ^ 12 := by ring
  rw [hs1]
  rw [or_mul_pow _ 12 (cp / 64 % 64 * 2 ^ 6) (by norm_num; omega)]
  have hs2 : (cp / 262144 * 64 + cp / 4096 % 64) * 2 ^ 12 + cp / 64 % 64 * 2 ^ 6 =
      ((cp / 262144 * 64 + cp / 4096 % 64) * 64 + cp / 64 % 64) * 2 ^ 6 := by ring
  rw [hs2]
  rw [or_mul_pow _ 6 (cp % 64) (by omega)]
  rw [if_neg (by omega : ¬240 + cp / 262144 = 0)]
  rw [if_neg (by norm_num : ¬(128 : Nat) = 0)]
  have h26 : (2 : Nat) ^ 6 = 64 := by norm_num
  rw [h26]
  omega

end FbTerm

namespace FbTerm

/-- Feeding one ASCII byte in Normal state with an idle accumulator writes
the cell at the cursor and advances. -/
theorem process_utf8_one (T : Terminal) (cp : Nat) (hst : T.state = .normal)
    (hbuf : T.utf8_buf = []) (hx : T.cursor_x < T.cols) (hy : T.cursor_y < T.rows)
    (h1 : 32 ≤ cp) (h2 : cp < 128) :
    ((processBytes T [cp]).cells T.cursor_y T.cursor_x =
      { codepoint := cp, fg_color := T.fg_color, bg_color := T.bg_color,
        bold := T.bold }) ∧
    (processBytes T [cp]).cursor_x = T.cursor_x + 1 ∧
    (processBytes T [cp]).cursor_y = T.cursor_y := by
  rw [processBytes_one, process_printable T cp hst (by omega)]
  rw [hbuf]
  simp only [List.nil_append, List.headD_cons, List.length_cons, List.length_nil]
  rw [if_pos (by simp [expected_len_one cp h2])]
  rw [utf8_decode_one cp h1 h2]
  unfold term_putchar
  rw [if_neg (by omega)]
  unfold term_putchar_write
  rw [if_neg (by omega)]
  unfold term_putchar_store
  simp

/-- Feeding the canonical two-byte encoding in Normal state with an idle
accumulator writes the cell at the cursor and advances. -/
theorem process_utf8_two (T : Terminal) (cp : Nat) (hst : T.state = .normal)
    (hbuf : T.utf8_buf = []) (hx : T.cursor_x < T.cols) (hy : T.cursor_y < T.rows)
    (h1 : 128 ≤ cp) (h2 : cp < 2048) :
    ((processBytes T [192 + cp / 64, 128 + cp % 64]).cells T.cursor_y T.cursor_x =
      { codepoint := cp, fg_color := T.fg_color, bg_color := T.bg_color,
        bold := T.bold }) ∧
    (processBytes T [192 + cp / 64, 128 + cp % 64]).cursor_x = T.cursor_x + 1 ∧
    (processBytes T [192 + cp / 64, 128 + cp % 64]).cursor_y = T.cursor_y := by
  rw [processBytes_cons, process_printable T _ hst (by omega)]
  rw [hbuf]
  simp only [List.nil_append, List.headD_cons, List.length_cons, List.length_nil]
  rw [if_neg (by simp [expected_len_two (cp / 64) (by omega)])]
  rw [processBytes_one, process_printable _ _ (by simpa using hst) (by omega)]
  simp only [List.cons_append, List.nil_append, List.headD_cons,
    List.length_cons, List.length_nil]
  rw [if_pos (by simp [expected_len_two (cp / 64) (by omega)])]
  rw [utf8_decode_two cp h1 h2]
  unfold term_putchar
  rw [if_neg (by simp; omega)]
  unfold term_putchar_write
  rw [if_neg (by simp; omega)]
  unfold term_putchar_store
  simp

/-- Feeding the canonical three-byte encoding in Normal state with an idle
accumulator writes the cell at the cursor and advances. -/
theorem process_utf8_three (T : Terminal) (cp : Nat) (hst : T.state = .normal)
    (hbuf : T.utf8_buf = []) (hx : T.cursor_x < T.cols) (hy : T.cursor_y < T.rows)
    (h1 : 2048 ≤ cp) (h2 : cp < 65536) :
    ((processBytes T [224 + cp / 4096, 128 + cp / 64 % 64, 128 + cp % 64]).cells
        T.cursor_y T.cursor_x =
      { codepoint := cp, fg_color := T.fg_color, bg_color := T.bg_color,
        bold := T.bold }) ∧
    (processBytes T [224 + cp / 4096, 128 + cp / 64 % 64, 128 + cp % 64]).cursor_x =
      T.cursor_x + 1 ∧
    (processBytes T [224 + cp / 4096, 128 + cp / 64 % 64, 128 + cp % 64]).cursor_y =
      T.cursor_y := by
  rw [processBytes_cons, process_printable T _ hst (by omega)]
  rw [hbuf]
  simp only [List.nil_append, List.headD_cons, List.length_cons, List.length_nil]
  rw [if_neg (by simp [expected_len_three (cp / 4096) (by omega)])]
  rw [processBytes_cons, process_printable _ _ (by simpa using hst) (by omega)]
  simp only [List.cons_append, List.nil_append, List.headD_cons,
    List.length_cons, List.length_nil]
  rw [if_neg (by simp [expected_len_three (cp / 4096) (by omega)])]
  rw [processBytes_one, process_printable _ _ (by simpa using hst) (by omega)]
  simp only [List.cons_append, List.nil_append, List.headD_cons,
    List.length_cons, List.length_nil]
  rw [if_pos (by simp [expected_len_three (cp / 4096) (by omega)])]
  rw [utf8_decode_three cp h1 h2]
  unfold term_putchar
  rw [if_neg (by simp; omega)]
  unfold term_putchar_write
  rw [if_neg (by simp; omega)]
  unfold term_putchar_store
  simp

/-- Feeding the canonical four-byte encoding in Normal state with an idle
accumulator writes the cell at the cursor and advances. -/
theorem process_utf8_four (T : Terminal) (cp : Nat) (hst : T.state = .normal)
    (hbuf : T.utf8_buf = []) (hx : T.cursor_x < T.cols) (hy : T.cursor_y < T.rows)
    (h1 : 65536 ≤ cp) (h2 : cp < 2097152) :
    ((processBytes T
        [240 + cp / 262144, 128 + cp / 4096 % 64, 128 + cp / 64 % 64,
         128 + cp % 64]).cells T.cursor_y T.cursor_x =
      { codepoint := cp, fg_color := T.fg_color, bg_color := T.bg_color,
        bold := T.bold }) ∧
    (processBytes T
        [240 + cp / 262144, 128 + cp / 4096 % 64, 128 + cp / 64 % 64,
         128 + cp % 64]).cursor_x = T.cursor_x + 1 ∧
    (processBytes T
        [240 + cp / 262144, 128 + cp / 4096 % 64, 128 + cp / 64 % 64,
         128 + cp % 64]).cursor_y = T.cursor_y := by
  rw [processBytes_cons, process_printable T _ hst (by omega)]
  rw [hbuf]
  simp only [List.nil_append, List.headD_cons, List.length_cons, List.length_nil]
  rw [if_neg (by simp [expected_len_four (cp / 262144) (by omega)])]
  rw [processBytes_cons, process_printable _ _ (by simpa using hst) (by omega)]
  simp only [List.cons_append, List.nil_append, List.headD_cons,
    List.length_cons, List.length_nil]
  rw [if_neg (by simp [expected_len_four (cp / 262144) (by omega)])]
  rw [processBytes_cons, process_printable _ _ (by simpa using hst) (by omega)]
  simp only [List.cons_append, List.nil_append, List.headD_cons,
    List.length_cons, List.length_nil]
  rw [if_neg (by simp [expected_len_four (cp / 262144) (by omega)])]
  rw [processBytes_one, process_printable _ _ (by simpa using hst) (by omega)]
  simp only [List.cons_append, List.nil_append, List.headD_cons,
    List.length_cons, List.length_nil]
  rw [if_pos (by simp [expected_len_four (cp / 262144) (by omega)])]
  rw [utf8_decode_four cp h1 h2]
  unfold term_putchar
  rw [if_neg (by simp; omega)]
  unfold term_putchar_write
  rw [if_neg (by simp; omega)]
  unfold term_putchar_store
  simp

/-- C2: feeding the canonical UTF-8 encoding of any scalar value in
U+0020..U+10FFFF (surrogates excluded) to the parser in Normal state with
an idle UTF-8 accumulator writes a cell whose codepoint is that scalar at
the cursor position, stamps the current SGR state, and advances the cursor
by one column. -/
theorem c2_utf8_roundtrip (T : Terminal) (cp : Nat) (hst : T.state = .normal)
    (hbuf : T.utf8_buf = []) (hx : T.cursor_x < T.cols) (hy : T.cursor_y < T.rows)
    (h1 : 32 ≤ cp) (h2 : cp ≤ 0x10FFFF) (hsur : ¬(0xD800 ≤ cp ∧ cp ≤ 0xDFFF)) :
    ((processBytes T (utf8Encode cp)).cells T.cursor_y T.cursor_x =
      { codepoint := cp, fg_color := T.fg_color, bg_color := T.bg_color,
        bold := T.bold }) ∧
    (processBytes T (utf8Encode cp)).cursor_x = T.cursor_x + 1 ∧
    (processBytes T (utf8Encode cp)).cursor_y = T.cursor_y := by
  rcases Nat.lt_or_ge cp 128 with hr | hr
  · have he : utf8Encode cp = [cp] := by
      unfold utf8Encode
      rw [if_pos (by omega)]
    rw [he]
    exact process_utf8_one T cp hst hbuf hx hy h1 hr
  · rcases Nat.lt_or_ge cp 2048 with hr2 | hr2
    · have he : utf8Encode cp = [192 + cp / 64, 128 + cp % 64] := by
        unfold utf8Encode
        rw [if_neg (by omega), if_pos (by omega)]
      rw [he]
      exact process_utf8_two T cp hst hbuf hx hy hr hr2
    · rcases Nat.lt_or_ge cp 65536 with hr3 | hr3
      · have he : utf8Encode cp =
            [224 + cp / 4096, 128 + cp / 64 % 64, 128 + cp % 64] := by
          unfold utf8Encode
          rw [if_neg (by omega), if_neg (by omega), if_pos (by omega)]
        rw [he]
        exact process_utf8_three T cp hst hbuf hx hy hr2 hr3
      · have he : utf8Encode cp =
            [240 + cp / 262144, 128 + cp / 4096 % 64, 128 + cp / 64 % 64,
             128 + cp % 64] := by
          unfold utf8Encode
          rw [if_neg (by omega), if_neg (by omega), if_neg (by omega)]
        rw [he]
        exact process_utf8_four T cp hst hbuf hx hy hr3 (by omega)

/-- C2 witness: the bytes E4 B8 AD (U+4E2D) from the initial 80×24 state
produce cell (0,0) with codepoint 0x4E2D and leave the cursor at column 1
of row 0. -/
theorem c2_utf8_roundtrip_witness :
    utf8Encode 0x4E2D = [228, 184, 173] ∧
    (((processBytes (term_init 80 24) (utf8Encode 0x4E2D)).cells
        (term_init 80 24).cursor_y (term_init 80 24).cursor_x =
      { codepoint := 0x4E2D, fg_color := (term_init 80 24).fg_color,
        bg_color := (term_init 80 24).bg_color,
        bold := (term_init 80 24).bold }) ∧
    (processBytes (term_init 80 24) (utf8Encode 0x4E2D)).cursor_x =
      (term_init 80 24).cursor_x + 1 ∧
    (processBytes (term_init 80 24) (utf8Encode 0x4E2D)).cursor_y =
      (term_init 80 24).cursor_y) :=
  ⟨by decide,
   c2_utf8_roundtrip (term_init 80 24) 0x4E2D rfl rfl (by decide) (by decide)
     (by decide) (by decide) (by decide)⟩

end FbTerm

namespace FbTerm

/-! ## Iterated scroll characterization -/

/-- Unfolding one iteration. -/
theorem iterateOp_succ (f : Terminal → Terminal) (k : Nat) (T : Terminal) :
    iterateOp f (k + 1) T = iterateOp f k (f T) := rfl

/-- Iterated scroll-up preserves every field but the cells. -/
theorem iterUp_fields (k : Nat) : ∀ T : Terminal,
    (iterateOp term_scroll_up k T).cols = T.cols ∧
    (iterateOp term_scroll_up k T).scroll_top = T.scroll_top ∧
    (iterateOp term_scroll_up k T).scroll_bottom = T.scroll_bottom ∧
    (iterateOp term_scroll_up k T).fg_color = T.fg_color ∧
    (iterateOp term_scroll_up k T).bg_color = T.bg_color := by
  induction k with
  | zero => intro T; exact ⟨rfl, rfl, rfl, rfl, rfl⟩
  | succ k ih =>
    intro T
    rw [iterateOp_succ]
    obtain ⟨a, b, c, d, e⟩ := ih (term_scroll_up T)
    simp [a, b, c, d, e]

/-- Iterated scroll-down preserves every field but the cells. -/
theorem iterDown_fields (k : Nat) : ∀ T : Terminal,
    (iterateOp term_scroll_down k T).cols = T.cols ∧
    (iterateOp term_scroll_down k T).scroll_top = T.scroll_top ∧
    (iterateOp term_scroll_down k T).scroll_bottom = T.scroll_bottom ∧
    (iterateOp term_scroll_down k T).fg_color = T.fg_color ∧
    (iterateOp term_scroll_down k T).bg_color = T.bg_color := by
  induction k with
  | zero => intro T; exact ⟨rfl, rfl, rfl, rfl, rfl⟩
  | succ k ih =>
    intro T
    rw [iterateOp_succ]
    obtain ⟨a, b, c, d, e⟩ := ih (term_scroll_down T)
    simp [a, b, c, d, e]

/-- Visible content of the region after k scroll-ups: rows shift up by k,
the freed bottom rows are blank in the current colors. -/
theorem iterUp_vis (k : Nat) : ∀ (T : Terminal) (y x : Nat),
    T.scroll_top ≤ y → y ≤ T.scroll_bottom → x < T.cols →
    vis ((iterateOp term_scroll_up k T).cells y x) =
      if y + k ≤ T.scroll_bottom then vis (T.cells (y + k) x)
      else (32, T.fg_color, T.bg_color) := by
  induction k with
  | zero =>
    intro T y x ht hb hx
    rw [if_pos (by omega)]
    rfl
  | succ k ih =>
    intro T y x ht hb hx
    rw [iterateOp_succ]
    rw [ih (term_scroll_up T) y x (by simpa using ht) (by simpa using hb)
      (by simpa using hx)]
    simp only [scroll_up_scroll_bottom, scroll_up_fg_color, scroll_up_bg_color]
    rcases le_or_lt (y + (k + 1)) T.scroll_bottom with hc | hc
    · rw [if_pos (by omega : y + k ≤ T.scroll_bottom), if_pos hc]
      have hcell : (term_scroll_up T).cells (y + k) x = T.cells (y + (k + 1)) x := by
        simp only [term_scroll_up]
        rw [if_neg (by omega), if_pos ⟨by omega, by omega, hx⟩]
        rfl
      rw [hcell]
    · rcases le_or_lt (y + k) T.scroll_bottom with hc2 | hc2
      · rw [if_pos hc2, if_neg (by omega : ¬y + (k + 1) ≤ T.scroll_bottom)]
        have hcc : (term_scroll_up T).cells (y + k) x =
            clearCell T (T.cells (y + k) x) := by
          simp only [term_scroll_up]
          rw [if_pos ⟨by omega, hx⟩, if_neg (by omega)]
        rw [hcc]
        rfl
      · rw [if_neg (by omega : ¬y + k ≤ T.scroll_bottom),
          if_neg (by omega : ¬y + (k + 1) ≤ T.scroll_bottom)]

/-- Visible content of the region after k scroll-downs: rows shift down by
k, the freed top rows are blank in the current colors. -/
theorem iterDown_vis (k : Nat) : ∀ (T : Terminal) (y x : Nat),
    T.scroll_top ≤ y → y ≤ T.scroll_bottom → x < T.cols →
    vis ((iterateOp term_scroll_down k T).cells y x) =
      if T.scroll_top + k ≤ y then vis (T.cells (y - k) x)
      else (32, T.fg_color, T.bg_color) := by
  induction k with
  | zero =>
    intro T y x ht hb hx
    rw [if_pos (by omega)]
    rfl
  | succ k ih =>
    intro T y x ht hb hx
    rw [iterateOp_succ]
    rw [ih (term_scroll_down T) y x (by simpa using ht) (by simpa using hb)
      (by simpa using hx)]
    simp only [scroll_down_scroll_top, scroll_down_fg_color, scroll_down_bg_color]
    rcases le_or_lt (T.scroll_top + (k + 1)) y with hc | hc
    · rw [if_pos (by omega : T.scroll_top + k ≤ y), if_pos hc]
      have hcell : (term_scroll_down T).cells (y - k) x =
          T.cells (y - (k + 1)) x := by
        simp only [term_scroll_down]
        rw [if_neg (by omega), if_pos ⟨by omega, by omega, hx⟩]
        rw [Nat.sub_sub]
      rw [hcell]
    · rcases le_or_lt (T.scroll_top + k) y with hc2 | hc2
      · rw [if_pos hc2, if_neg (by omega : ¬T.scroll_top + (k + 1) ≤ y)]
        have hcc : (term_scroll_down T).cells (y - k) x =
            clearCell T (T.cells (y - k) x) := by
          simp only [term_scroll_down]
          rw [if_pos ⟨by omega, hx⟩, if_neg (by omega)]
        rw [hcc]
        rfl
      · rw [if_neg (by omega : ¬T.scroll_top + k ≤ y),
          if_neg (by omega : ¬T.scroll_top + (k + 1) ≤ y)]

end FbTerm

namespace FbTerm

/-- Scroll-top is preserved by iterated scroll-up. -/
theorem iterUp_scroll_top (k : Nat) (T : Terminal) :
    (iterateOp term_scroll_up k T).scroll_top = T.scroll_top :=
  (iterUp_fields k T).2.1

/-- Scroll-bottom is preserved by iterated scroll-up. -/
theorem iterUp_scroll_bottom (k : Nat) (T : Terminal) :
    (iterateOp term_scroll_up k T).scroll_bottom = T.scroll_bottom :=
  (iterUp_fields k T).2.2.1

/-- Foreground is preserved by iterated scroll-up. -/
theorem iterUp_fg (k : Nat) (T : Terminal) :
    (iterateOp term_scroll_up k T).fg_color = T.fg_color :=
  (iterUp_fields k T).2.2.2.1

/-- Background is preserved by iterated scroll-up. -/
theorem iterUp_bg (k : Nat) (T : Terminal) :
    (iterateOp term_scroll_up k T).bg_color = T.bg_color :=
  (iterUp_fields k T).2.2.2.2

/-- Column count is preserved by iterated scroll-up. -/
theorem iterUp_cols (k : Nat) (T : Terminal) :
    (iterateOp term_scroll_up k T).cols = T.cols :=
  (iterUp_fields k T).1

/-- CSI S with a single positive parameter scrolls the region up that many
times. -/
theorem handle_csi_S (T : Terminal) (hn : T.num_escape_params = 1)
    (hp : 0 < T.escape_params 0) :
    term_handle_csi T 83 = iterateOp term_scroll_up (T.escape_params 0) T := by
  unfold term_handle_csi
  rw [hn]
  norm_num [hp]

/-- CSI T with a single positive parameter scrolls the region down that
many times. -/
theorem handle_csi_T (T : Terminal) (hn : T.num_escape_params = 1)
    (hp : 0 < T.escape_params 0) :
    term_handle_csi T 84 = iterateOp term_scroll_down (T.escape_params 0) T := by
  unfold term_handle_csi
  rw [hn]
  norm_num [hp]

end FbTerm

namespace FbTerm

/-- Core of the scroll cancellation law: k scroll-downs applied to any state
whose cells are those of k scroll-ups of B (and whose region, colors and
width agree with B) restore the visible content of every region cell,
provided the top k region rows of B were blank. -/
theorem scroll_cancel_core (B E : Terminal) (k : Nat)
    (hEc : E.cells = (iterateOp term_scroll_up k B).cells)
    (hEt : E.scroll_top = B.scroll_top) (hEb : E.scroll_bottom = B.scroll_bottom)
    (hEf : E.fg_color = B.fg_color) (hEg : E.bg_color = B.bg_color)
    (hEcols : E.cols = B.cols)
    (hts : B.scroll_top ≤ B.scroll_bottom)
    (hblankTop : ∀ y x, B.scroll_top ≤ y → y < B.scroll_top + k → x < B.cols →
        vis (B.cells y x) = (32, B.fg_color, B.bg_color)) :
    ∀ y x, B.scroll_top ≤ y → y ≤ B.scroll_bottom → x < B.cols →
      vis ((iterateOp term_scroll_down k E).cells y x) = vis (B.cells y x) := by
  intro y x hty hyb hxc
  rw [iterDown_vis k E y x (by rw [hEt]; exact hty) (by rw [hEb]; exact hyb)
    (by rw [hEcols]; exact hxc)]
  rw [hEt, hEf, hEg, hEc]
  rcases le_or_lt (B.scroll_top + k) y with hcase | hcase
  · rw [if_pos hcase]
    rw [iterUp_vis k B (y - k) x (by omega) (by omega) hxc]
    rw [if_pos (by omega)]
    have hyk : y - k + k = y := by omega
    rw [hyk]
  · rw [if_neg (by omega)]
    exact (hblankTop y x hty (by omega) hxc).symm

/-- C8 (amended): for 1 ≤ k within the region height, ESC[kS immediately
followed by ESC[kT restores the codepoint, fg_color and bg_color of every
cell of the scroll region, provided the top k and bottom k rows of the
region were blank (with the current colors) beforehand and no other
mutations occur between the two sequences.  The bold attribute is NOT
restored in general (see the counterexample): the clearing loops of the
scroll operations never write it. -/
theorem c8_scroll_cancel_amended (T : Terminal) (k : Nat)
    (hst : T.state = .normal) (hk : 1 ≤ k)
    (hh : k ≤ T.scroll_bottom + 1 - T.scroll_top)
    (hts : T.scroll_top ≤ T.scroll_bottom)
    (hblankTop : ∀ y x, T.scroll_top ≤ y → y < T.scroll_top + k → x < T.cols →
        vis (T.cells y x) = (32, T.fg_color, T.bg_color))
    (hblankBot : ∀ y x, T.scroll_bottom < y + k → y ≤ T.scroll_bottom →
        x < T.cols → vis (T.cells y x) = (32, T.fg_color, T.bg_color)) :
    ∀ y x, T.scroll_top ≤ y → y ≤ T.scroll_bottom → x < T.cols →
      vis ((processBytes T
          (([27, 91] ++ decDigits k ++ [83]) ++
           ([27, 91] ++ decDigits k ++ [84]))).cells y x) =
        vis (T.cells y x) := by
  intro y x hty hyb hxc
  rw [processBytes_append T ([27, 91] ++ decDigits k ++ [83])
    ([27, 91] ++ decDigits k ++ [84])]
  rw [processBytes_append T ([27, 91] ++ decDigits k) [83]]
  rw [processBytes_append T [27, 91] (decDigits k)]
  rw [process_csi_lead T hst]
  rw [process_number_first _ k rfl rfl rfl hk]
  rw [processBytes_one, process_csi_final _ 83 rfl (by decide) (by decide)]
  rw [handle_csi_S _ (by simp) (by simp [setParam]; omega)]
  rw [processBytes_append _ ([27, 91] ++ decDigits k) [84]]
  rw [processBytes_append _ [27, 91] (decDigits k)]
  rw [process_csi_lead _ rfl]
  rw [process_number_first _ k rfl rfl rfl hk]
  rw [processBytes_one, process_csi_final _ 84 rfl (by decide) (by decide)]
  rw [handle_csi_T _ (by simp) (by simp [setParam]; omega)]
  simp only [setParam_eval]
  let B : Terminal := { T with state := PState.csi, escape_params := setParam (fun x => 0) 0 k, num_escape_params := 1, private_mode := false, utf8_buf := [] }
  exact scroll_cancel_core B
    { (iterateOp term_scroll_up k B) with state := PState.csi, escape_params := setParam (fun x => 0) 0 k, num_escape_params := 1, private_mode := false, utf8_buf := [] }
    k rfl (iterUp_scroll_top k B) (iterUp_scroll_bottom k B) (iterUp_fg k B)
    (iterUp_bg k B) (iterUp_cols k B) hts hblankTop y x hty hyb hxc

/-- C8 witness: on a 1-column, 2-row initial grid with k = 1 (region
height 2, both region edge rows blank), the pair ESC[1S ESC[1T restores the
visible content of cell (1,0). -/
theorem c8_scroll_cancel_amended_witness :
    vis ((processBytes (term_init 1 2)
        (([27, 91] ++ decDigits 1 ++ [83]) ++
         ([27, 91] ++ decDigits 1 ++ [84]))).cells 1 0) =
      vis ((term_init 1 2).cells 1 0) :=
  c8_scroll_cancel_amended (term_init 1 2) 1 rfl (by decide) (by decide)
    (by decide)
    (by
      intro y x h1 h2 h3
      have hy : y = 0 := by
        simp only [term_init] at h2
        omega
      have hx : x = 0 := by
        simp only [term_init] at h3
        omega
      subst hy
      subst hx
      rfl)
    (by
      intro y x h1 h2 h3
      have hy : y = 1 := by
        simp only [term_init] at h1 h2
        omega
      have hx : x = 0 := by
        simp only [term_init] at h3
        omega
      subst hy
      subst hx
      rfl)
    1 0 (by decide) (by decide) (by decide)

end FbTerm

namespace FbTerm

/-! ## Codepoint bound invariant (C6) -/

/-- Or of two 21-bit values is 21-bit. -/
theorem or_lt_21 {a b : Nat} (ha : a < 2097152) (hb : b < 2097152) :
    a ||| b < 2097152 := by
  have h : (2 : Nat) ^ 21 = 2097152 := by norm_num
  rw [← h] at ha hb ⊢
  exact Nat.or_lt_two_pow ha hb

/-- A masked, shifted payload stays below 2^21 when the mask and shift fit. -/
theorem mask_shift_lt (c n k : Nat) (h : (n + 1) * 2 ^ k ≤ 2097152) :
    (c &&& n) <<< k < 2097152 := by
  have h1 : c &&& n ≤ n := Nat.and_le_right
  rw [Nat.shiftLeft_eq]
  have h2 : (c &&& n) * 2 ^ k ≤ n * 2 ^ k :=
    Nat.mul_le_mul_right _ h1
  have h3 : n * 2 ^ k + 2 ^ k = (n + 1) * 2 ^ k := by ring
  have h4 : 0 < 2 ^ k := Nat.two_pow_pos k
  omega

/-- A 6-bit mask alone is below 2^21. -/
theorem mask63_lt (b : Nat) : b &&& 63 < 2097152 := by
  have h := Nat.and_le_right (n := b) (m := 63)
  omega

/-- Bound leaves for the two-, three- and four-byte decode shapes. -/
theorem or2_lt (c b1 : Nat) :
    (c &&& 31) <<< 6 ||| b1 &&& 63 < 2097152 :=
  or_lt_21 (mask_shift_lt c 31 6 (by norm_num)) (mask63_lt b1)

theorem or3a_lt (c b1 : Nat) :
    (c &&& 15) <<< 12 ||| (b1 &&& 63) <<< 6 < 2097152 :=
  or_lt_21 (mask_shift_lt c 15 12 (by norm_num)) (mask_shift_lt b1 63 6 (by norm_num))

theorem or3b_lt (c b1 b2 : Nat) :
    (c &&& 15) <<< 12 ||| (b1 &&& 63) <<< 6 ||| b2 &&& 63 < 2097152 :=
  or_lt_21 (or3a_lt c b1) (mask63_lt b2)

theorem or4a_lt (c b1 : Nat) :
    (c &&& 7) <<< 18 ||| (b1 &&& 63) <<< 12 < 2097152 :=
  or_lt_21 (mask_shift_lt c 7 18 (by norm_num)) (mask_shift_lt b1 63 12 (by norm_num))

theorem or4b_lt (c b1 b2 : Nat) :
    (c &&& 7) <<< 18 ||| (b1 &&& 63) <<< 12 ||| (b2 &&& 63) <<< 6 < 2097152 :=
  or_lt_21 (or4a_lt c b1) (mask_shift_lt b2 63 6 (by norm_num))

theorem or4c_lt (c b1 b2 b3 : Nat) :
    (c &&& 7) <<< 18 ||| (b1 &&& 63) <<< 12 ||| (b2 &&& 63) <<< 6 ||| b3 &&& 63 < 2097152 :=
  or_lt_21 (or4b_lt c b1 b2) (mask63_lt b3)

theorem utf8_decode_lt1 (c : Nat) (hc : c < 256) :
    utf8_decode [c] < 2097152 := by
  simp only [utf8_decode]
  repeat' split
  any_goals omega
  · exact mask_shift_lt c 31 6 (by norm_num)
  · exact mask_shift_lt c 15 12 (by norm_num)
  · exact mask_shift_lt c 7 18 (by norm_num)

theorem utf8_decode_lt2 (c b1 : Nat) (hc : c < 256) :
    utf8_decode [c, b1] < 2097152 := by
  simp only [utf8_decode]
  repeat' split
  any_goals omega
  · exact or2_lt c b1
  · exact mask_shift_lt c 31 6 (by norm_num)
  · exact or3a_lt c b1
  · exact mask_shift_lt c 15 12 (by norm_num)
  · exact or4a_lt c b1
  · exact mask_shift_lt c 7 18 (by norm_num)

theorem utf8_decode_lt3 (c b1 b2 : Nat) (hc : c < 256) :
    utf8_decode [c, b1, b2] < 2097152 := by
  simp only [utf8_decode]
  repeat' split
  any_goals omega
  · exact or2_lt c b1
  · exact mask_shift_lt c 31 6 (by norm_num)
  · exact or3b_lt c b1 b2
  · exact or3a_lt c b1
  · exact mask_shift_lt c 15 12 (by norm_num)
  · exact or4b_lt c b1 b2
  · exact or4a_lt c b1
  · exact mask_shift_lt c 7 18 (by norm_num)

theorem utf8_decode_lt5 (c b1 b2 b3 : Nat) (rest : List Nat) (hc : c < 256) :
    utf8_decode (c :: b1 :: b2 :: b3 :: rest) < 2097152 := by
  simp only [utf8_decode]
  repeat' split
  any_goals omega
  · exact or2_lt c b1
  · exact mask_shift_lt c 31 6 (by norm_num)
  · exact or3b_lt c b1 b2
  · exact or3a_lt c b1
  · exact mask_shift_lt c 15 12 (by norm_num)
  · exact or4c_lt c b1 b2 b3
  · exact or4b_lt c b1 b2
  · exact or4a_lt c b1
  · exact mask_shift_lt c 7 18 (by norm_num)

theorem utf8_decode_lt (l : List Nat) (hl : ∀ b ∈ l, b < 256) :
    utf8_decode l < 2097152 := by
  rcases l with _ | ⟨c, _ | ⟨b1, _ | ⟨b2, _ | ⟨b3, rest⟩⟩⟩⟩
  · simp [utf8_decode]
  · exact utf8_decode_lt1 c (hl c (by simp))
  · exact utf8_decode_lt2 c b1 (hl c (by simp))
  · exact utf8_decode_lt3 c b1 b2 (hl c (by simp))
  · exact utf8_decode_lt5 c b1 b2 b3 rest (hl c (by simp))

/-- Every clearing write stores the blank codepoint 32. -/
theorem clearCell_cp_lt (T : Terminal) (c : Cell) :
    (clearCell T c).codepoint < 2097152 := by
  show (32 : Nat) < 2097152
  norm_num

/-- term_scroll_up writes only copies of existing cells and blanks. -/
theorem term_scroll_up_cellBound (T : Terminal) (h : cellCpBound T) :
    cellCpBound (term_scroll_up T) := by
  intro y x
  simp only [term_scroll_up]
  repeat' split
  all_goals first
    | exact clearCell_cp_lt _ _
    | exact h _ _

/-- term_scroll_down writes only copies of existing cells and blanks. -/
theorem term_scroll_down_cellBound (T : Terminal) (h : cellCpBound T) :
    cellCpBound (term_scroll_down T) := by
  intro y x
  simp only [term_scroll_down]
  repeat' split
  all_goals first
    | exact clearCell_cp_lt _ _
    | exact h _ _

/-- term_newline moves the cursor and at most scrolls. -/
theorem term_newline_cellBound (T : Terminal) (h : cellCpBound T) :
    cellCpBound (term_newline T) := by
  simp only [term_newline]
  split
  · exact term_scroll_up_cellBound _ h
  · exact h

/-- term_putchar_store writes one bounded codepoint. -/
theorem term_putchar_store_cellBound (T : Terminal) (cp : Nat)
    (h : cellCpBound T) (hcp : cp < 2097152) :
    cellCpBound (term_putchar_store T cp) := by
  intro y x
  simp only [term_putchar_store]
  split
  · exact hcp
  · exact h _ _

/-- term_putchar_write writes one bounded codepoint. -/
theorem term_putchar_write_cellBound (T : Terminal) (cp : Nat)
    (h : cellCpBound T) (hcp : cp < 2097152) :
    cellCpBound (term_putchar_write T cp) := by
  simp only [term_putchar_write]
  split
  · exact term_putchar_store_cellBound _ _ h hcp
  · exact term_putchar_store_cellBound _ _ h hcp

/-- term_putchar writes one bounded codepoint, possibly after a wrap. -/
theorem term_putchar_cellBound (T : Terminal) (cp : Nat)
    (h : cellCpBound T) (hcp : cp < 2097152) :
    cellCpBound (term_putchar T cp) := by
  simp only [term_putchar]
  split
  · exact term_putchar_write_cellBound _ _ (term_newline_cellBound _ h) hcp
  · exact term_putchar_write_cellBound _ _ h hcp

/-- Iterating a bound-preserving operation preserves the bound. -/
theorem iterateOp_cellBound (f : Terminal → Terminal)
    (hf : ∀ A, cellCpBound A → cellCpBound (f A)) :
    ∀ (k : Nat) (T : Terminal), cellCpBound T → cellCpBound (iterateOp f k T)
  | 0, _, h => h
  | k + 1, T, h => iterateOp_cellBound f hf k (f T) (hf T h)

/-- SGR parameters never touch the grid. -/
theorem sgr1_cells (T : Terminal) (v : Nat) : (sgr1 T v).cells = T.cells := by
  simp only [sgr1]
  repeat' split
  all_goals rfl

/-- DEC private modes never touch the grid. -/
theorem decMode1_cells (T : Terminal) (s : Bool) (v : Nat) :
    (decMode1 T s v).cells = T.cells := by
  simp only [decMode1]
  repeat' split
  all_goals rfl

/-- A fold of grid-preserving steps preserves the grid. -/
theorem foldl_cells (f : Terminal → Nat → Terminal)
    (hf : ∀ A i, (f A i).cells = A.cells) :
    ∀ (l : List Nat) (T : Terminal), (l.foldl f T).cells = T.cells
  | [], _ => rfl
  | i :: rest, T => (foldl_cells f hf rest (f T i)).trans (hf T i)

/-- The codepoint bound only depends on the grid. -/
theorem cellCpBound_of_cells {S R : Terminal} (he : S.cells = R.cells)
    (h : cellCpBound R) : cellCpBound S := by
  intro y x
  rw [he]
  exact h y x

/-- Iterating a buffer-preserving operation preserves the buffer. -/
theorem iterateOp_utf8 (f : Terminal → Terminal)
    (hf : ∀ A, (f A).utf8_buf = A.utf8_buf) :
    ∀ (k : Nat) (T : Terminal), (iterateOp f k T).utf8_buf = T.utf8_buf
  | 0, _ => rfl
  | k + 1, T => (iterateOp_utf8 f hf k (f T)).trans (hf T)

/-- A fold of buffer-preserving steps preserves the buffer. -/
theorem foldl_utf8 (f : Terminal → Nat → Terminal)
    (hf : ∀ A i, (f A i).utf8_buf = A.utf8_buf) :
    ∀ (l : List Nat) (T : Terminal), (l.foldl f T).utf8_buf = T.utf8_buf
  | [], _ => rfl
  | i :: rest, T => (foldl_utf8 f hf rest (f T i)).trans (hf T i)

/-- The byte bound on the accumulator only depends on the accumulator. -/
theorem bufBound_of_eq {S R : Terminal} (he : S.utf8_buf = R.utf8_buf)
    (hbR : bufBound R) : bufBound S := by
  intro b hm
  rw [he] at hm
  exact hbR b hm

/-- Every CSI dispatch writes only blanks and copies of existing cells. -/
theorem term_handle_csi_cellBound (T : Terminal) (final : Nat)
    (h : cellCpBound T) : cellCpBound (term_handle_csi T final) := by
  simp only [term_handle_csi]
  by_cases h1 : final = 72 ∨ final = 102
  · rw [if_pos h1]
    repeat' split
    all_goals first
      | exact h
      | exact iterateOp_cellBound _ term_scroll_up_cellBound _ _ h
      | exact iterateOp_cellBound _ term_scroll_down_cellBound _ _ h
      | exact cellCpBound_of_cells (foldl_cells _ (fun A i => sgr1_cells A _) _ _) h
      | exact cellCpBound_of_cells (foldl_cells _ (fun A i => decMode1_cells A _ _) _ _) h
      | exact iterateOp_cellBound _
          (fun A hA => by
            intro y x
            try dsimp only
            repeat' split
            all_goals first
              | exact clearCell_cp_lt _ _
              | exact hA _ _) _ _ h
      | (intro y x
         try dsimp only
         repeat' split
         all_goals first
           | exact clearCell_cp_lt _ _
           | exact h _ _)
  rw [if_neg h1]
  by_cases h2 : final = 65
  · rw [if_pos h2]
    repeat' split
    all_goals first
      | exact h
      | exact iterateOp_cellBound _ term_scroll_up_cellBound _ _ h
      | exact iterateOp_cellBound _ term_scroll_down_cellBound _ _ h
      | exact cellCpBound_of_cells (foldl_cells _ (fun A i => sgr1_cells A _) _ _) h
      | exact cellCpBound_of_cells (foldl_cells _ (fun A i => decMode1_cells A _ _) _ _) h
      | exact iterateOp_cellBound _
          (fun A hA => by
            intro y x
            try dsimp only
            repeat' split
            all_goals first
              | exact clearCell_cp_lt _ _
              | exact hA _ _) _ _ h
      | (intro y x
         try dsimp only
         repeat' split
         all_goals first
           | exact clearCell_cp_lt _ _
           | exact h _ _)
  rw [if_neg h2]
  by_cases h3 : final = 66
  · rw [if_pos h3]
    repeat' split
    all_goals first
      | exact h
      | exact iterateOp_cellBound _ term_scroll_up_cellBound _ _ h
      | exact iterateOp_cellBound _ term_scroll_down_cellBound _ _ h
      | exact cellCpBound_of_cells (foldl_cells _ (fun A i => sgr1_cells A _) _ _) h
      | exact cellCpBound_of_cells (foldl_cells _ (fun A i => decMode1_cells A _ _) _ _) h
      | exact iterateOp_cellBound _
          (fun A hA => by
            intro y x
            try dsimp only
            repeat' split
            all_goals first
              | exact clearCell_cp_lt _ _
              | exact hA _ _) _ _ h
      | (intro y x
         try dsimp only
         repeat' split
         all_goals first
           | exact clearCell_cp_lt _ _
           | exact h _ _)
  rw [if_neg h3]
  by_cases h4 : final = 67
  · rw [if_pos h4]
    repeat' split
    all_goals first
      | exact h
      | exact iterateOp_cellBound _ term_scroll_up_cellBound _ _ h
      | exact iterateOp_cellBound _ term_scroll_down_cellBound _ _ h
      | exact cellCpBound_of_cells (foldl_cells _ (fun A i => sgr1_cells A _) _ _) h
      | exact cellCpBound_of_cells (foldl_cells _ (fun A i => decMode1_cells A _ _) _ _) h
      | exact iterateOp_cellBound _
          (fun A hA => by
            intro y x
            try dsimp only
            repeat' split
            all_goals first
              | exact clearCell_cp_lt _ _
              | exact hA _ _) _ _ h
      | (intro y x
         try dsimp only
         repeat' split
         all_goals first
           | exact clearCell_cp_lt _ _
           | exact h _ _)
  rw [if_neg h4]
  by_cases h5 : final = 68
  · rw [if_pos h5]
    repeat' split
    all_goals first
      | exact h
      | exact iterateOp_cellBound _ term_scroll_up_cellBound _ _ h
      | exact iterateOp_cellBound _ term_scroll_down_cellBound _ _ h
      | exact cellCpBound_of_cells (foldl_cells _ (fun A i => sgr1_cells A _) _ _) h
      | exact cellCpBound_of_cells (foldl_cells _ (fun A i => decMode1_cells A _ _) _ _) h
      | exact iterateOp_cellBound _
          (fun A hA => by
            intro y x
            try dsimp only
            repeat' split
            all_goals first
              | exact clearCell_cp_lt _ _
              | exact hA _ _) _ _ h
      | (intro y x
         try dsimp only
         repeat' split
         all_goals first
           | exact clearCell_cp_lt _ _
           | exact h _ _)
  rw [if_neg h5]
  by_cases h6 : final = 74
  · rw [if_pos h6]
    repeat' split
    all_goals first
      | exact h
      | exact iterateOp_cellBound _ term_scroll_up_cellBound _ _ h
      | exact iterateOp_cellBound _ term_scroll_down_cellBound _ _ h
      | exact cellCpBound_of_cells (foldl_cells _ (fun A i => sgr1_cells A _) _ _) h
      | exact cellCpBound_of_cells (foldl_cells _ (fun A i => decMode1_cells A _ _) _ _) h
      | exact iterateOp_cellBound _
          (fun A hA => by
            intro y x
            try dsimp only
            repeat' split
            all_goals first
              | exact clearCell_cp_lt _ _
              | exact hA _ _) _ _ h
      | (intro y x
         try dsimp only
         repeat' split
         all_goals first
           | exact clearCell_cp_lt _ _
           | exact h _ _)
  rw [if_neg h6]
  by_cases h7 : final = 75
  · rw [if_pos h7]
    repeat' split
    all_goals first
      | exact h
      | exact iterateOp_cellBound _ term_scroll_up_cellBound _ _ h
      | exact iterateOp_cellBound _ term_scroll_down_cellBound _ _ h
      | exact cellCpBound_of_cells (foldl_cells _ (fun A i => sgr1_cells A _) _ _) h
      | exact cellCpBound_of_cells (foldl_cells _ (fun A i => decMode1_cells A _ _) _ _) h
      | exact iterateOp_cellBound _
          (fun A hA => by
            intro y x
            try dsimp only
            repeat' split
            all_goals first
              | exact clearCell_cp_lt _ _
              | exact hA _ _) _ _ h
      | (intro y x
         try dsimp only
         repeat' split
         all_goals first
           | exact clearCell_cp_lt _ _
           | exact h _ _)
  rw [if_neg h7]
  by_cases h8 : final = 109
  · rw [if_pos h8]
    repeat' split
    all_goals first
      | exact h
      | exact iterateOp_cellBound _ term_scroll_up_cellBound _ _ h
      | exact iterateOp_cellBound _ term_scroll_down_cellBound _ _ h
      | exact cellCpBound_of_cells (foldl_cells _ (fun A i => sgr1_cells A _) _ _) h
      | exact cellCpBound_of_cells (foldl_cells _ (fun A i => decMode1_cells A _ _) _ _) h
      | exact iterateOp_cellBound _
          (fun A hA => by
            intro y x
            try dsimp only
            repeat' split
            all_goals first
              | exact clearCell_cp_lt _ _
              | exact hA _ _) _ _ h
      | (intro y x
         try dsimp only
         repeat' split
         all_goals first
           | exact clearCell_cp_lt _ _
           | exact h _ _)
  rw [if_neg h8]
  by_cases h9 : final = 104
  · rw [if_pos h9]
    repeat' split
    all_goals first
      | exact h
      | exact iterateOp_cellBound _ term_scroll_up_cellBound _ _ h
      | exact iterateOp_cellBound _ term_scroll_down_cellBound _ _ h
      | exact cellCpBound_of_cells (foldl_cells _ (fun A i => sgr1_cells A _) _ _) h
      | exact cellCpBound_of_cells (foldl_cells _ (fun A i => decMode1_cells A _ _) _ _) h
      | exact iterateOp_cellBound _
          (fun A hA => by
            intro y x
            try dsimp only
            repeat' split
            all_goals first
              | exact clearCell_cp_lt _ _
              | exact hA _ _) _ _ h
      | (intro y x
         try dsimp only
         repeat' split
         all_goals first
           | exact clearCell_cp_lt _ _
           | exact h _ _)
  rw [if_neg h9]
  by_cases h10 : final = 108
  · rw [if_pos h10]
    repeat' split
    all_goals first
      | exact h
      | exact iterateOp_cellBound _ term_scroll_up_cellBound _ _ h
      | exact iterateOp_cellBound _ term_scroll_down_cellBound _ _ h
      | exact cellCpBound_of_cells (foldl_cells _ (fun A i => sgr1_cells A _) _ _) h
      | exact cellCpBound_of_cells (foldl_cells _ (fun A i => decMode1_cells A _ _) _ _) h
      | exact iterateOp_cellBound _
          (fun A hA => by
            intro y x
            try dsimp only
            repeat' split
            all_goals first
              | exact clearCell_cp_lt _ _
              | exact hA _ _) _ _ h
      | (intro y x
         try dsimp only
         repeat' split
         all_goals first
           | exact clearCell_cp_lt _ _
           | exact h _ _)
  rw [if_neg h10]
  by_cases h11 : final = 114
  · rw [if_pos h11]
    repeat' split
    all_goals first
      | exact h
      | exact iterateOp_cellBound _ term_scroll_up_cellBound _ _ h
      | exact iterateOp_cellBound _ term_scroll_down_cellBound _ _ h
      | exact cellCpBound_of_cells (foldl_cells _ (fun A i => sgr1_cells A _) _ _) h
      | exact cellCpBound_of_cells (foldl_cells _ (fun A i => decMode1_cells A _ _) _ _) h
      | exact iterateOp_cellBound _
          (fun A hA => by
            intro y x
            try dsimp only
            repeat' split
            all_goals first
              | exact clearCell_cp_lt _ _
              | exact hA _ _) _ _ h
      | (intro y x
         try dsimp only
         repeat' split
         all_goals first
           | exact clearCell_cp_lt _ _
           | exact h _ _)
  rw [if_neg h11]
  by_cases h12 : final = 100
  · rw [if_pos h12]
    repeat' split
    all_goals first
      | exact h
      | exact iterateOp_cellBound _ term_scroll_up_cellBound _ _ h
      | exact iterateOp_cellBound _ term_scroll_down_cellBound _ _ h
      | exact cellCpBound_of_cells (foldl_cells _ (fun A i => sgr1_cells A _) _ _) h
      | exact cellCpBound_of_cells (foldl_cells _ (fun A i => decMode1_cells A _ _) _ _) h
      | exact iterateOp_cellBound _
          (fun A hA => by
            intro y x
            try dsimp only
            repeat' split
            all_goals first
              | exact clearCell_cp_lt _ _
              | exact hA _ _) _ _ h
      | (intro y x
         try dsimp only
         repeat' split
         all_goals first
           | exact clearCell_cp_lt _ _
           | exact h _ _)
  rw [if_neg h12]
  by_cases h13 : final = 71
  · rw [if_pos h13]
    repeat' split
    all_goals first
      | exact h
      | exact iterateOp_cellBound _ term_scroll_up_cellBound _ _ h
      | exact iterateOp_cellBound _ term_scroll_down_cellBound _ _ h
      | exact cellCpBound_of_cells (foldl_cells _ (fun A i => sgr1_cells A _) _ _) h
      | exact cellCpBound_of_cells (foldl_cells _ (fun A i => decMode1_cells A _ _) _ _) h
      | exact iterateOp_cellBound _
          (fun A hA => by
            intro y x
            try dsimp only
            repeat' split
            all_goals first
              | exact clearCell_cp_lt _ _
              | exact hA _ _) _ _ h
      | (intro y x
         try dsimp only
         repeat' split
         all_goals first
           | exact clearCell_cp_lt _ _
           | exact h _ _)
  rw [if_neg h13]
  by_cases h14 : final = 83
  · rw [if_pos h14]
    repeat' split
    all_goals first
      | exact h
      | exact iterateOp_cellBound _ term_scroll_up_cellBound _ _ h
      | exact iterateOp_cellBound _ term_scroll_down_cellBound _ _ h
      | exact cellCpBound_of_cells (foldl_cells _ (fun A i => sgr1_cells A _) _ _) h
      | exact cellCpBound_of_cells (foldl_cells _ (fun A i => decMode1_cells A _ _) _ _) h
      | exact iterateOp_cellBound _
          (fun A hA => by
            intro y x
            try dsimp only
            repeat' split
            all_goals first
              | exact clearCell_cp_lt _ _
              | exact hA _ _) _ _ h
      | (intro y x
         try dsimp only
         repeat' split
         all_goals first
           | exact clearCell_cp_lt _ _
           | exact h _ _)
  rw [if_neg h14]
  by_cases h15 : final = 84
  · rw [if_pos h15]
    repeat' split
    all_goals first
      | exact h
      | exact iterateOp_cellBound _ term_scroll_up_cellBound _ _ h
      | exact iterateOp_cellBound _ term_scroll_down_cellBound _ _ h
      | exact cellCpBound_of_cells (foldl_cells _ (fun A i => sgr1_cells A _) _ _) h
      | exact cellCpBound_of_cells (foldl_cells _ (fun A i => decMode1_cells A _ _) _ _) h
      | exact iterateOp_cellBound _
          (fun A hA => by
            intro y x
            try dsimp only
            repeat' split
            all_goals first
              | exact clearCell_cp_lt _ _
              | exact hA _ _) _ _ h
      | (intro y x
         try dsimp only
         repeat' split
         all_goals first
           | exact clearCell_cp_lt _ _
           | exact h _ _)
  rw [if_neg h15]
  by_cases h16 : final = 76
  · rw [if_pos h16]
    repeat' split
    all_goals first
      | exact h
      | exact iterateOp_cellBound _ term_scroll_up_cellBound _ _ h
      | exact iterateOp_cellBound _ term_scroll_down_cellBound _ _ h
      | exact cellCpBound_of_cells (foldl_cells _ (fun A i => sgr1_cells A _) _ _) h
      | exact cellCpBound_of_cells (foldl_cells _ (fun A i => decMode1_cells A _ _) _ _) h
      | exact iterateOp_cellBound _
          (fun A hA => by
            intro y x
            try dsimp only
            repeat' split
            all_goals first
              | exact clearCell_cp_lt _ _
              | exact hA _ _) _ _ h
      | (intro y x
         try dsimp only
         repeat' split
         all_goals first
           | exact clearCell_cp_lt _ _
           | exact h _ _)
  rw [if_neg h16]
  by_cases h17 : final = 77
  · rw [if_pos h17]
    repeat' split
    all_goals first
      | exact h
      | exact iterateOp_cellBound _ term_scroll_up_cellBound _ _ h
      | exact iterateOp_cellBound _ term_scroll_down_cellBound _ _ h
      | exact cellCpBound_of_cells (foldl_cells _ (fun A i => sgr1_cells A _) _ _) h
      | exact cellCpBound_of_cells (foldl_cells _ (fun A i => decMode1_cells A _ _) _ _) h
      | exact iterateOp_cellBound _
          (fun A hA => by
            intro y x
            try dsimp only
            repeat' split
            all_goals first
              | exact clearCell_cp_lt _ _
              | exact hA _ _) _ _ h
      | (intro y x
         try dsimp only
         repeat' split
         all_goals first
           | exact clearCell_cp_lt _ _
           | exact h _ _)
  rw [if_neg h17]
  by_cases h18 : final = 88
  · rw [if_pos h18]
    repeat' split
    all_goals first
      | exact h
      | exact iterateOp_cellBound _ term_scroll_up_cellBound _ _ h
      | exact iterateOp_cellBound _ term_scroll_down_cellBound _ _ h
      | exact cellCpBound_of_cells (foldl_cells _ (fun A i => sgr1_cells A _) _ _) h
      | exact cellCpBound_of_cells (foldl_cells _ (fun A i => decMode1_cells A _ _) _ _) h
      | exact iterateOp_cellBound _
          (fun A hA => by
            intro y x
            try dsimp only
            repeat' split
            all_goals first
              | exact clearCell_cp_lt _ _
              | exact hA _ _) _ _ h
      | (intro y x
         try dsimp only
         repeat' split
         all_goals first
           | exact clearCell_cp_lt _ _
           | exact h _ _)
  rw [if_neg h18]
  by_cases h19 : final = 80
  · rw [if_pos h19]
    repeat' split
    all_goals first
      | exact h
      | exact iterateOp_cellBound _ term_scroll_up_cellBound _ _ h
      | exact iterateOp_cellBound _ term_scroll_down_cellBound _ _ h
      | exact cellCpBound_of_cells (foldl_cells _ (fun A i => sgr1_cells A _) _ _) h
      | exact cellCpBound_of_cells (foldl_cells _ (fun A i => decMode1_cells A _ _) _ _) h
      | exact iterateOp_cellBound _
          (fun A hA => by
            intro y x
            try dsimp only
            repeat' split
            all_goals first
              | exact clearCell_cp_lt _ _
              | exact hA _ _) _ _ h
      | (intro y x
         try dsimp only
         repeat' split
         all_goals first
           | exact clearCell_cp_lt _ _
           | exact h _ _)
  rw [if_neg h19]
  by_cases h20 : final = 64
  · rw [if_pos h20]
    repeat' split
    all_goals first
      | exact h
      | exact iterateOp_cellBound _ term_scroll_up_cellBound _ _ h
      | exact iterateOp_cellBound _ term_scroll_down_cellBound _ _ h
      | exact cellCpBound_of_cells (foldl_cells _ (fun A i => sgr1_cells A _) _ _) h
      | exact cellCpBound_of_cells (foldl_cells _ (fun A i => decMode1_cells A _ _) _ _) h
      | exact iterateOp_cellBound _
          (fun A hA => by
            intro y x
            try dsimp only
            repeat' split
            all_goals first
              | exact clearCell_cp_lt _ _
              | exact hA _ _) _ _ h
      | (intro y x
         try dsimp only
         repeat' split
         all_goals first
           | exact clearCell_cp_lt _ _
           | exact h _ _)
  rw [if_neg h20]
  by_cases h21 : final = 110
  · rw [if_pos h21]
    repeat' split
    all_goals first
      | exact h
      | exact iterateOp_cellBound _ term_scroll_up_cellBound _ _ h
      | exact iterateOp_cellBound _ term_scroll_down_cellBound _ _ h
      | exact cellCpBound_of_cells (foldl_cells _ (fun A i => sgr1_cells A _) _ _) h
      | exact cellCpBound_of_cells (foldl_cells _ (fun A i => decMode1_cells A _ _) _ _) h
      | exact iterateOp_cellBound _
          (fun A hA => by
            intro y x
            try dsimp only
            repeat' split
            all_goals first
              | exact clearCell_cp_lt _ _
              | exact hA _ _) _ _ h
      | (intro y x
         try dsimp only
         repeat' split
         all_goals first
           | exact clearCell_cp_lt _ _
           | exact h _ _)
  rw [if_neg h21]
  by_cases h22 : final = 99
  · rw [if_pos h22]
    repeat' split
    all_goals first
      | exact h
      | exact iterateOp_cellBound _ term_scroll_up_cellBound _ _ h
      | exact iterateOp_cellBound _ term_scroll_down_cellBound _ _ h
      | exact cellCpBound_of_cells (foldl_cells _ (fun A i => sgr1_cells A _) _ _) h
      | exact cellCpBound_of_cells (foldl_cells _ (fun A i => decMode1_cells A _ _) _ _) h
      | exact iterateOp_cellBound _
          (fun A hA => by
            intro y x
            try dsimp only
            repeat' split
            all_goals first
              | exact clearCell_cp_lt _ _
              | exact hA _ _) _ _ h
      | (intro y x
         try dsimp only
         repeat' split
         all_goals first
           | exact clearCell_cp_lt _ _
           | exact h _ _)
  rw [if_neg h22]
  exact h

/-- SGR parameters never touch the UTF-8 accumulator. -/
theorem sgr1_utf8 (T : Terminal) (v : Nat) : (sgr1 T v).utf8_buf = T.utf8_buf := by
  simp only [sgr1]
  repeat' split
  all_goals rfl

/-- DEC private modes never touch the UTF-8 accumulator. -/
theorem decMode1_utf8 (T : Terminal) (s : Bool) (v : Nat) :
    (decMode1 T s v).utf8_buf = T.utf8_buf := by
  simp only [decMode1]
  repeat' split
  all_goals rfl

/-- No CSI dispatch touches the UTF-8 accumulator. -/
theorem term_handle_csi_utf8 (T : Terminal) (final : Nat) :
    (term_handle_csi T final).utf8_buf = T.utf8_buf := by
  simp only [term_handle_csi]
  by_cases h1 : final = 72 ∨ final = 102
  · rw [if_pos h1]
    repeat' split
    all_goals first
      | rfl
      | (apply iterateOp_utf8
         intro A
         rfl)
      | (apply foldl_utf8
         intro A i
         first
           | exact sgr1_utf8 A _
           | exact decMode1_utf8 A _ _)
  rw [if_neg h1]
  by_cases h2 : final = 65
  · rw [if_pos h2]
    repeat' split
    all_goals first
      | rfl
      | (apply iterateOp_utf8
         intro A
         rfl)
      | (apply foldl_utf8
         intro A i
         first
           | exact sgr1_utf8 A _
           | exact decMode1_utf8 A _ _)
  rw [if_neg h2]
  by_cases h3 : final = 66
  · rw [if_pos h3]
    repeat' split
    all_goals first
      | rfl
      | (apply iterateOp_utf8
         intro A
         rfl)
      | (apply foldl_utf8
         intro A i
         first
           | exact sgr1_utf8 A _
           | exact decMode1_utf8 A _ _)
  rw [if_neg h3]
  by_cases h4 : final = 67
  · rw [if_pos h4]
    repeat' split
    all_goals first
      | rfl
      | (apply iterateOp_utf8
         intro A
         rfl)
      | (apply foldl_utf8
         intro A i
         first
           | exact sgr1_utf8 A _
           | exact decMode1_utf8 A _ _)
  rw [if_neg h4]
  by_cases h5 : final = 68
  · rw [if_pos h5]
    repeat' split
    all_goals first
      | rfl
      | (apply iterateOp_utf8
         intro A
         rfl)
      | (apply foldl_utf8
         intro A i
         first
           | exact sgr1_utf8 A _
           | exact decMode1_utf8 A _ _)
  rw [if_neg h5]
  by_cases h6 : final = 74
  · rw [if_pos h6]
    repeat' split
    all_goals first
      | rfl
      | (apply iterateOp_utf8
         intro A
         rfl)
      | (apply foldl_utf8
         intro A i
         first
           | exact sgr1_utf8 A _
           | exact decMode1_utf8 A _ _)
  rw [if_neg h6]
  by_cases h7 : final = 75
  · rw [if_pos h7]
    repeat' split
    all_goals first
      | rfl
      | (apply iterateOp_utf8
         intro A
         rfl)
      | (apply foldl_utf8
         intro A i
         first
           | exact sgr1_utf8 A _
           | exact decMode1_utf8 A _ _)
  rw [if_neg h7]
  by_cases h8 : final = 109
  · rw [if_pos h8]
    repeat' split
    all_goals first
      | rfl
      | (apply iterateOp_utf8
         intro A
         rfl)
      | (apply foldl_utf8
         intro A i
         first
           | exact sgr1_utf8 A _
           | exact decMode1_utf8 A _ _)
  rw [if_neg h8]
  by_cases h9 : final = 104
  · rw [if_pos h9]
    repeat' split
    all_goals first
      | rfl
      | (apply iterateOp_utf8
         intro A
         rfl)
      | (apply foldl_utf8
         intro A i
         first
           | exact sgr1_utf8 A _
           | exact decMode1_utf8 A _ _)
  rw [if_neg h9]
  by_cases h10 : final = 108
  · rw [if_pos h10]
    repeat' split
    all_goals first
      | rfl
      | (apply iterateOp_utf8
         intro A
         rfl)
      | (apply foldl_utf8
         intro A i
         first
           | exact sgr1_utf8 A _
           | exact decMode1_utf8 A _ _)
  rw [if_neg h10]
  by_cases h11 : final = 114
  · rw [if_pos h11]
    repeat' split
    all_goals first
      | rfl
      | (apply iterateOp_utf8
         intro A
         rfl)
      | (apply foldl_utf8
         intro A i
         first
           | exact sgr1_utf8 A _
           | exact decMode1_utf8 A _ _)
  rw [if_neg h11]
  by_cases h12 : final = 100
  · rw [if_pos h12]
    repeat' split
    all_goals first
      | rfl
      | (apply iterateOp_utf8
         intro A
         rfl)
      | (apply foldl_utf8
         intro A i
         first
           | exact sgr1_utf8 A _
           | exact decMode1_utf8 A _ _)
  rw [if_neg h12]
  by_cases h13 : final = 71
  · rw [if_pos h13]
    repeat' split
    all_goals first
      | rfl
      | (apply iterateOp_utf8
         intro A
         rfl)
      | (apply foldl_utf8
         intro A i
         first
           | exact sgr1_utf8 A _
           | exact decMode1_utf8 A _ _)
  rw [if_neg h13]
  by_cases h14 : final = 83
  · rw [if_pos h14]
    repeat' split
    all_goals first
      | rfl
      | (apply iterateOp_utf8
         intro A
         rfl)
      | (apply foldl_utf8
         intro A i
         first
           | exact sgr1_utf8 A _
           | exact decMode1_utf8 A _ _)
  rw [if_neg h14]
  by_cases h15 : final = 84
  · rw [if_pos h15]
    repeat' split
    all_goals first
      | rfl
      | (apply iterateOp_utf8
         intro A
         rfl)
      | (apply foldl_utf8
         intro A i
         first
           | exact sgr1_utf8 A _
           | exact decMode1_utf8 A _ _)
  rw [if_neg h15]
  by_cases h16 : final = 76
  · rw [if_pos h16]
    repeat' split
    all_goals first
      | rfl
      | (apply iterateOp_utf8
         intro A
         rfl)
      | (apply foldl_utf8
         intro A i
         first
           | exact sgr1_utf8 A _
           | exact decMode1_utf8 A _ _)
  rw [if_neg h16]
  by_cases h17 : final = 77
  · rw [if_pos h17]
    repeat' split
    all_goals first
      | rfl
      | (apply iterateOp_utf8
         intro A
         rfl)
      | (apply foldl_utf8
         intro A i
         first
           | exact sgr1_utf8 A _
           | exact decMode1_utf8 A _ _)
  rw [if_neg h17]
  by_cases h18 : final = 88
  · rw [if_pos h18]
    repeat' split
    all_goals first
      | rfl
      | (apply iterateOp_utf8
         intro A
         rfl)
      | (apply foldl_utf8
         intro A i
         first
           | exact sgr1_utf8 A _
           | exact decMode1_utf8 A _ _)
  rw [if_neg h18]
  by_cases h19 : final = 80
  · rw [if_pos h19]
    repeat' split
    all_goals first
      | rfl
      | (apply iterateOp_utf8
         intro A
         rfl)
      | (apply foldl_utf8
         intro A i
         first
           | exact sgr1_utf8 A _
           | exact decMode1_utf8 A _ _)
  rw [if_neg h19]
  by_cases h20 : final = 64
  · rw [if_pos h20]
    repeat' split
    all_goals first
      | rfl
      | (apply iterateOp_utf8
         intro A
         rfl)
      | (apply foldl_utf8
         intro A i
         first
           | exact sgr1_utf8 A _
           | exact decMode1_utf8 A _ _)
  rw [if_neg h20]
  by_cases h21 : final = 110
  · rw [if_pos h21]
    repeat' split
    all_goals first
      | rfl
      | (apply iterateOp_utf8
         intro A
         rfl)
      | (apply foldl_utf8
         intro A i
         first
           | exact sgr1_utf8 A _
           | exact decMode1_utf8 A _ _)
  rw [if_neg h21]
  by_cases h22 : final = 99
  · rw [if_pos h22]
    repeat' split
    all_goals first
      | rfl
      | (apply iterateOp_utf8
         intro A
         rfl)
      | (apply foldl_utf8
         intro A i
         first
           | exact sgr1_utf8 A _
           | exact decMode1_utf8 A _ _)
  rw [if_neg h22]

/-- One input byte preserves the codepoint bound on the grid. -/
theorem term_process_char_cellBound (T : Terminal) (ch : Nat)
    (h : cellCpBound T) (hb : bufBound T) (hch : ch < 256) :
    cellCpBound (term_process_char T ch) := by
  have hbuf : ∀ b ∈ T.utf8_buf ++ [ch], b < 256 := by
    intro b hm
    rcases List.mem_append.mp hm with hm1 | hm1
    · exact hb b hm1
    · have hbc : b = ch := List.mem_singleton.mp hm1
      omega
  simp only [term_process_char]
  repeat' split
  all_goals first
    | exact h
    | exact term_newline_cellBound _ h
    | exact term_putchar_cellBound _ _ h (utf8_decode_lt _ hbuf)
    | exact term_handle_csi_cellBound _ _ h

/-- One input byte keeps every accumulator entry a byte. -/
theorem term_process_char_bufBound (T : Terminal) (ch : Nat)
    (hb : bufBound T) (hch : ch < 256) :
    bufBound (term_process_char T ch) := by
  have hnil : ∀ b ∈ ([] : List Nat), b < 256 := by
    intro b hm
    cases hm
  have hbuf : ∀ b ∈ T.utf8_buf ++ [ch], b < 256 := by
    intro b hm
    rcases List.mem_append.mp hm with hm1 | hm1
    · exact hb b hm1
    · have hbc : b = ch := List.mem_singleton.mp hm1
      omega
  simp only [term_process_char]
  repeat' split
  all_goals first
    | exact hb
    | exact hnil
    | exact hbuf
    | exact bufBound_of_eq (term_handle_csi_utf8 _ _) hb

/-- A whole byte stream preserves both invariants. -/
theorem processBytes_bounds :
    ∀ (bs : List Nat) (T : Terminal), cellCpBound T → bufBound T →
      (∀ b ∈ bs, b < 256) →
      cellCpBound (processBytes T bs) ∧ bufBound (processBytes T bs)
  | [], _, h, hb, _ => ⟨h, hb⟩
  | c :: rest, T, h, hb, hbs =>
      processBytes_bounds rest (term_process_char T c)
        (term_process_char_cellBound T c h hb (hbs c (List.mem_cons_self c rest)))
        (term_process_char_bufBound T c hb (hbs c (List.mem_cons_self c rest)))
        (fun b hm => hbs b (List.mem_cons_of_mem c hm))

/-- The initial grid holds only blanks and zeroed cells. -/
theorem term_init_cellBound (cols rows : Nat) : cellCpBound (term_init cols rows) := by
  intro y x
  simp only [term_init]
  split
  · decide
  · decide

/-- C6 (amended): for every byte stream fed to a freshly initialised
terminal, every grid cell's codepoint stays below 2^21 = 2097152 — the
largest value the four-byte decoder shape can produce.  (The stronger
claim of the spec — valid scalar values only — fails: the counterexample
stores the surrogate 0xD800.) -/
theorem c6_cell_bound_amended (cols rows : Nat) (bs : List Nat)
    (hbs : ∀ b ∈ bs, b < 256) :
    cellCpBound (processBytes (term_init cols rows) bs) :=
  (processBytes_bounds bs (term_init cols rows) (term_init_cellBound cols rows)
    (fun b hm => absurd hm (List.not_mem_nil b)) hbs).1

/-- C6 amended witness: the surrogate-producing bytes ED A0 80 on the
80×24 terminal satisfy the byte-range hypothesis, and the bound holds. -/
theorem c6_cell_bound_amended_witness :
    (∀ b ∈ [(237 : Nat), 160, 128], b < 256) ∧
    cellCpBound (processBytes (term_init 80 24) [237, 160, 128]) :=
  ⟨by decide, c6_cell_bound_amended 80 24 [237, 160, 128] (by decide)⟩

end FbTerm
